import Mathlib

set_option maxRecDepth 40000

/-
Shallow embedding of the Hexagon/service repository (TypeScript/Deno):
the service-manager abstraction layer (systemd, sysvinit/init, upstart,
launchd, windows managers), the init-system detector, the dispatcher
registry and the CLI argument validation, together with theorems that
settle the specification claims about them.

Program strings are modelled as lists of characters (`Str`).  JavaScript
string operations used by the source are reproduced faithfully:
`String.prototype.replace` with a string pattern replaces only the first
occurrence (`replaceFirst`), `replace` with a `/g` regex replaces all
occurrences left to right (`replaceAll`), `Array.prototype.join`
(`jsJoin`), `String.prototype.split` (`splitSep`), template-literal
interpolation of `undefined` producing the text "undefined" (`jsOptStr`,
`jsOptJoin`), and JS truthiness of optional strings (`jsFalsy`,
`jsOrElse`).
-/

abbrev Str := List Char

/-- JS `Array.prototype.join(sep)`: empty array gives the empty string. -/
def jsJoin (sep : Str) : List Str → Str
  | [] => []
  | [x] => x
  | x :: y :: xs => x ++ sep ++ jsJoin sep (y :: xs)

/-- JS `String.prototype.split(sep)` for a one-character separator. -/
def splitSep (sep : Char) : Str → List Str
  | [] => [[]]
  | c :: cs =>
    match splitSep sep cs with
    | [] => [[]]
    | r :: rs => if c = sep then [] :: r :: rs else (c :: r) :: rs

/-- JS `String.prototype.replace` with a string pattern: replaces only the
first occurrence of `pat`, scanning from the left; returns the string
unchanged when the pattern does not occur. -/
def replaceFirst : Str → Str → Str → Str
  | [], pat, rep => if pat.isPrefixOf ([] : Str) then rep else []
  | c :: cs, pat, rep =>
    if pat.isPrefixOf (c :: cs) then rep ++ (c :: cs).drop pat.length
    else c :: replaceFirst cs pat rep

/-- Fuelled worker for `replaceAll`; fuel bounds the number of characters
consumed, keeping the definition structurally recursive (and hence
kernel-reducible). -/
def replaceAllFuel : Nat → Str → Str → Str → Str
  | 0, s, _, _ => s
  | _ + 1, [], _, _ => []
  | f + 1, c :: cs, pat, rep =>
    if pat ≠ [] ∧ pat.isPrefixOf (c :: cs) then
      rep ++ replaceAllFuel f ((c :: cs).drop pat.length) pat rep
    else
      c :: replaceAllFuel f cs pat rep

/-- JS `String.prototype.replace` with a `/g` regex on a literal pattern:
replaces every (non-overlapping) occurrence, left to right. -/
def replaceAll (s pat rep : Str) : Str := replaceAllFuel s.length s pat rep

/-- Template-literal interpolation of a possibly-`undefined` string:
`undefined` renders as the text "undefined". -/
def jsOptStr : Option Str → Str
  | none => ("undefined").data
  | some s => s

/-- Interpolation of `xs?.join(sep)`: an absent array renders as the text
"undefined"; a present array (even an empty one) is joined. -/
def jsOptJoin (sep : Str) : Option (List Str) → Str
  | none => ("undefined").data
  | some ps => jsJoin sep ps

/-- JS falsiness of an optional string: `undefined` and the empty string
are falsy. -/
def jsFalsy : Option Str → Bool
  | none => true
  | some s => s.isEmpty

/-- JS `a ? a : b` on an optional string `a`. -/
def jsOrElse (o : Option Str) (d : Str) : Str :=
  match o with
  | none => d
  | some s => if s.isEmpty then d else s

/-- Node `path.dirname` (for the slash-separated paths this program
builds): everything before the last slash. -/
def dirname (p : Str) : Str :=
  match p.reverse.dropWhile (fun c => ¬ (c = '/')) with
  | [] => (".").data
  | _ :: rest => if rest = [] then ("/").data else rest.reverse

/-- `InstallServiceOptions` from `lib/service.ts`. -/
structure InstallServiceOptions where
  system : Bool
  name : Str
  cmd : Str
  user : Option Str
  home : Option Str
  cwd : Option Str
  path : Option (List Str)
  env : Option (List Str)

/-- `UninstallServiceOptions` from `lib/service.ts`. -/
structure UninstallServiceOptions where
  system : Bool
  name : Str
  home : Option Str

/-- Ambient runtime values read by the managers: `Deno.execPath()`,
`Deno.cwd()` and `Deno.env.get("HOME")`. -/
structure RtEnv where
  execPath : Str
  cwd : Str
  homeEnv : Option Str

/-- Result of awaiting a spawned subprocess: its success flag and its
captured stderr text. -/
structure SpawnResult where
  success : Bool
  stderrText : Str

/-- The host environment an install/uninstall call runs against:
filesystem existence, the outcome of the k-th spawned subprocess, whether
removing a path succeeds (and the error message when it does not), and
the name `Deno.makeTempFile()` returns. -/
structure Host where
  rt : RtEnv
  fileExists : Str → Bool
  spawnRes : Nat → SpawnResult
  removeOk : Str → Bool
  removeErrMsg : Str → Str
  tempPath : Str

/-- Externally visible side effects of an install/uninstall call. -/
inductive Effect where
  | printOut (s : Str)
  | printErr (s : Str)
  | fileWrite (p content : Str)
  | fileRemove (p : Str)
  | mkdirp (p : Str)
  | spawned (cmd : Str) (args : List Str)
deriving DecidableEq

/-- How a call ended: normal return, `Deno.exit(code)`, or a thrown error. -/
inductive Outcome where
  | normal
  | exited (code : Nat)
  | threw (msg : Str)
deriving DecidableEq

/-- True for effects that mutate the filesystem or spawn a subprocess
(as opposed to merely printing). -/
def Effect.isMutation : Effect → Bool
  | .printOut _ => false
  | .printErr _ => false
  | _ => true

/-- Concatenation of everything printed to standard output. -/
def stdoutOf (effs : List Effect) : Str :=
  (effs.filterMap (fun e =>
    match e with
    | .printOut s => some s
    | _ => none)).flatten

/-! ### Template placeholders -/

def phName : Str := ("\x7b\x7bname\x7d\x7d").data
def phCommand : Str := ("\x7b\x7bcommand\x7d\x7d").data
def phPath : Str := ("\x7b\x7bpath\x7d\x7d").data
def phWorkingDirectory : Str := ("\x7b\x7bworkingDirectory\x7d\x7d").data
def phExtraServiceContent : Str := ("\x7b\x7bextraServiceContent\x7d\x7d").data
def phExtraEnvs : Str := ("\x7b\x7bextraEnvs\x7d\x7d").data

/-! ### systemd manager (`lib/managers/systemd.ts`) -/

/-- `serviceFileTemplate` of `lib/managers/systemd.ts`. -/
def systemdServiceFileTemplate : Str :=
  ("[Unit]\nDescription=\x7b\x7bname\x7d\x7d (Deno Service)\n\n[Service]\nExecStart=/bin/sh -c \"\x7b\x7bcommand\x7d\x7d\"\nRestart=always\nRestartSec=30\nEnvironment=\x7b\x7bpath\x7d\x7d\nWorkingDirectory=\x7b\x7bworkingDirectory\x7d\x7d\n\x7b\x7bextraServiceContent\x7d\x7d\n\n[Install]\nWantedBy=multi-user.target\n").data

/-- The `envPath` local of `SystemdService.generateConfig`:
`PATH=${denoPath}:${options.home}/.deno/bin` followed by the caller
paths when `options.path` is present. -/
def systemdEnvPath (rt : RtEnv) (options : InstallServiceOptions) : Str :=
  let denoPath := rt.execPath
  let defaultPath := ("PATH=").data ++ denoPath ++ (":").data ++ jsOptStr options.home ++ ("/.deno/bin").data
  match options.path with
  | some ps => defaultPath ++ (":").data ++ jsJoin ((":").data) ps
  | none => defaultPath

/-- `SystemdService.generateConfig`. -/
def systemdGenerateConfig (rt : RtEnv) (options : InstallServiceOptions) : Str :=
  let envPath := systemdEnvPath rt options
  let workingDirectory := jsOrElse options.cwd rt.cwd
  let s1 := replaceFirst systemdServiceFileTemplate phName options.name
  let s2 := replaceFirst s1 phCommand options.cmd
  let s3 := replaceFirst s2 phPath envPath
  let s4 := replaceFirst s3 phWorkingDirectory workingDirectory
  if options.system then
    replaceFirst s4 phExtraServiceContent (("User=").data ++ jsOptStr options.user)
  else
    replaceFirst s4 phExtraServiceContent []

/-- The user-scope unit path `${config.home}/.config/systemd/user/${name}.service`. -/
def systemdPathUser (home : Option Str) (name : Str) : Str :=
  jsOptStr home ++ ("/.config/systemd/user/").data ++ name ++ (".service").data

/-- The system-scope unit path `/etc/systemd/system/${name}.service`. -/
def systemdPathSystem (name : Str) : Str :=
  ("/etc/systemd/system/").data ++ name ++ (".service").data

/-! ### launchd manager (`lib/managers/launchd.ts`) -/

/-- `plistTemplate` of `lib/managers/launchd.ts`. -/
def launchdPlistTemplate : Str :=
  ("<?xml version=\"1.0\" encoding=\"UTF-8\"?>\n<!DOCTYPE plist PUBLIC \"-//Apple//DTD PLIST 1.0//EN\" \"http://www.apple.com/DTDs/PropertyList-1.0.dtd\">\n<plist version=\"1.0\">\n  <dict>\n    <key>Label</key>\n    <string>\x7b\x7bname\x7d\x7d</string>\n    <key>ProgramArguments</key>\n    <array>\n\x7b\x7bcommand\x7d\x7d    </array>\n    <key>EnvironmentVariables</key>\n    <dict>\n      <key>PATH</key>\n      <string>\x7b\x7bpath\x7d\x7d</string>\n\x7b\x7bextraEnvs\x7d\x7d    </dict>\n    <key>WorkingDirectory</key>\n    <string>\x7b\x7bworkingDirectory\x7d\x7d</string>\n    <key>KeepAlive</key>\n    <true/>\n  </dict>\n</plist>\n").data

/-- The `servicePath` local of `LaunchdService.generateConfig`:
`${options.path?.join(":")}:${denoPath}:${options.home}/.deno/bin`. -/
def launchdServicePathVal (rt : RtEnv) (options : InstallServiceOptions) : Str :=
  jsOptJoin ((":").data) options.path ++ (":").data ++ rt.execPath ++ (":").data ++
    jsOptStr options.home ++ ("/.deno/bin").data

/-- `LaunchdService.generateConfig`. -/
def launchdGenerateConfig (rt : RtEnv) (options : InstallServiceOptions) : Str :=
  let commandArgs := splitSep ' ' options.cmd
  let servicePath := launchdServicePathVal rt options
  let workingDirectory := jsOrElse options.cwd rt.cwd
  let p1 := replaceAll launchdPlistTemplate phName options.name
  let p2 := replaceAll p1 phPath servicePath
  let p3 := replaceAll p2 phWorkingDirectory workingDirectory
  let programArguments :=
    (commandArgs.map (fun arg => ("      <string>").data ++ arg ++ ("</string>\n").data)).flatten
  let p4 := replaceFirst p3 phCommand programArguments
  match options.env with
  | some es =>
    if 0 < es.length then
      let extraEnvs := (es.map (fun env =>
        ("      <key>").data ++ (splitSep '=' env).headI ++ ("</key>\n      <string>").data ++
          jsOptStr ((splitSep '=' env)[1]?) ++ ("</string>\n").data)).flatten
      replaceFirst p4 phExtraEnvs extraEnvs
    else replaceFirst p4 phExtraEnvs []
  | none => replaceFirst p4 phExtraEnvs []

/-- The user-scope plist path `${config.home}/Library/LaunchAgents/${name}.plist`. -/
def launchdPathUser (home : Option Str) (name : Str) : Str :=
  jsOptStr home ++ ("/Library/LaunchAgents/").data ++ name ++ (".plist").data

/-- The system-scope plist path `/Library/LaunchDaemons/${name}.plist`. -/
def launchdPathSystem (name : Str) : Str :=
  ("/Library/LaunchDaemons/").data ++ name ++ (".plist").data

/-! ### sysvinit/docker-init manager (`lib/managers/init.ts`) -/

/-- `initScriptTemplate` of `lib/managers/init.ts`. -/
def initScriptTemplate : Str :=
  ("#!/bin/sh\n### BEGIN INIT INFO\n# Provides:          \x7b\x7bname\x7d\x7d\n# Required-Start:    $remote_fs $syslog\n# Required-Stop:     $remote_fs $syslog\n# Default-Start:     2 3 4 5\n# Default-Stop:      0 1 6\n# Short-Description: \x7b\x7bname\x7d\x7d (Deno Service)\n# Description:       Start \x7b\x7bname\x7d\x7d service\n### END INIT INFO\n\nPATH=\x7b\x7bpath\x7d\x7d\n\x7b\x7bextraEnvs\x7d\x7d\n\n# Change the next line to match your installation\nDENO_COMMAND=\"\x7b\x7bcommand\x7d\x7d\"\n\ncase \"$1\" in\n  start)\n    echo \"Starting \x7b\x7bname\x7d\x7d...\"\n    $DENO_COMMAND &\n    echo $! > /var/run/\x7b\x7bname\x7d\x7d.pid\n    ;;\n  stop)\n    echo \"Stopping \x7b\x7bname\x7d\x7d...\"\n    PID=$(cat /var/run/\x7b\x7bname\x7d\x7d.pid)\n    kill $PID\n    rm /var/run/\x7b\x7bname\x7d\x7d.pid\n    ;;\n  restart)\n    $0 stop\n    $0 start\n    ;;\n  status)\n    if [ -e /var/run/\x7b\x7bname\x7d\x7d.pid ]; then\n      echo \"\x7b\x7bname\x7d\x7d is running\"\n    else\n      echo \"\x7b\x7bname\x7d\x7d is not running\"\n    fi\n    ;;\n  *)\n    echo \"Usage: $0 \x7bstart|stop|restart|status\x7d\"\n    exit 1\n    ;;\nesac\n\nexit 0\n").data

/-- The `servicePath` local of `InitService.generateConfig`:
`${config.path?.join(":")}:${denoPath}:${Deno.env.get("HOME")}/.deno/bin`. -/
def initServicePathVal (rt : RtEnv) (options : InstallServiceOptions) : Str :=
  jsOptJoin ((":").data) options.path ++ (":").data ++ rt.execPath ++ (":").data ++
    jsOptStr rt.homeEnv ++ ("/.deno/bin").data

/-- `InitService.generateConfig`. -/
def initGenerateConfig (rt : RtEnv) (options : InstallServiceOptions) : Str :=
  let servicePath := initServicePathVal rt options
  let i1 := replaceAll initScriptTemplate phName options.name
  let i2 := replaceFirst i1 phCommand options.cmd
  let i3 := replaceFirst i2 phPath servicePath
  match options.env with
  | some es =>
    if 0 < es.length then
      replaceFirst i3 phExtraEnvs ((es.map (fun env => env ++ ("\n").data)).flatten)
    else replaceFirst i3 phExtraEnvs []
  | none => replaceFirst i3 phExtraEnvs []

/-- The init-script path `/etc/init.d/${config.name}`. -/
def initScriptPath (name : Str) : Str := ("/etc/init.d/").data ++ name

/-! ### upstart manager (`lib/managers/upstart.ts`) -/

/-- `upstartFileTemplate` of `lib/managers/upstart.ts`. -/
def upstartFileTemplate : Str :=
  ("# \x7b\x7bname\x7d\x7d (Deno Service)\n\ndescription \"\x7b\x7bname\x7d\x7d Deno Service\"\nauthor \"Service user\"\n\nstart on (filesystem and net-device-up IFACE!=lo)\nstop on runlevel [!2345]\n\nrespawn\nrespawn limit 10 5\n\nenv PATH=\x7b\x7bpath\x7d\x7d\n\n# Change the next line to match your service installation\nenv SERVICE_COMMAND=\"\x7b\x7bcommand\x7d\x7d\"\n\nexec $SERVICE_COMMAND\n").data

/-- The `envPath` local of `UpstartService.generateConfig`:
`${denoPath}:${Deno.env.get("HOME")}/.deno/bin` followed by caller paths
when present. -/
def upstartEnvPath (rt : RtEnv) (options : InstallServiceOptions) : Str :=
  let defaultPath := rt.execPath ++ (":").data ++ jsOptStr rt.homeEnv ++ ("/.deno/bin").data
  match options.path with
  | some ps => defaultPath ++ (":").data ++ jsJoin ((":").data) ps
  | none => defaultPath

/-- `UpstartService.generateConfig`. -/
def upstartGenerateConfig (rt : RtEnv) (options : InstallServiceOptions) : Str :=
  let envPath := upstartEnvPath rt options
  let u1 := replaceAll upstartFileTemplate phName options.name
  let u2 := replaceFirst u1 phCommand options.cmd
  replaceFirst u2 phPath envPath

/-- The upstart job path `/etc/init/${config.name}.conf`. -/
def upstartFilePath (name : Str) : Str := ("/etc/init/").data ++ name ++ (".conf").data

/-! ### windows manager (`lib/managers/windows.ts`) -/

/-- The `envPath` local of `WindowsService.generateConfig`:
`%PATH%;${denoPath};${options.home}\.deno\bin` followed by caller paths
(semicolon-separated) when present. -/
def windowsEnvPath (rt : RtEnv) (options : InstallServiceOptions) : Str :=
  let defaultPath := ("%PATH%;").data ++ rt.execPath ++ (";").data ++ jsOptStr options.home ++ ("\\.deno\\bin").data
  match options.path with
  | some ps => defaultPath ++ (";").data ++ jsJoin ((";").data) ps
  | none => defaultPath

/-- `WindowsService.generateConfig`. -/
def windowsGenerateConfig (rt : RtEnv) (options : InstallServiceOptions) : Str :=
  let envPath := windowsEnvPath rt options
  let workingDirectory := jsOrElse options.cwd rt.cwd
  let c1 := ("@echo off\n").data ++ ("cd \"").data ++ workingDirectory ++ ("\"\n").data ++
    ("set \"PATH=").data ++ envPath ++ ("\"\n").data
  let c2 :=
    match options.env with
    | some es =>
      if 0 < es.length then
        c1 ++ (es.map (fun env => ("set \"").data ++ env ++ ("\"\n").data)).flatten
      else c1
    | none => c1
  c2 ++ ("\"").data ++ rt.execPath ++
    ("\" run -A --allow-ffi --unstable https://deno.land/x/windows_service@1.0.5/run.ts --serviceName ").data ++
    options.name ++ (" -- ").data ++ options.cmd ++ ("\n").data

/-- The batch wrapper path `${config.home}/.service/${name}.bat`. -/
def windowsBatchPath (home : Option Str) (name : Str) : Str :=
  jsOptStr home ++ ("/.service/").data ++ name ++ (".bat").data

/-! ### systemd install / uninstall / rollback -/

/-- `SystemdService.rollback`: best-effort removal of the unit file plus a
`daemon-reload`; every error is caught and logged, never rethrown.  `k` is
the index the next spawned subprocess would get. -/
def systemdRollback (host : Host) (k : Nat) (servicePath : Str) (system : Bool) : List Effect :=
  if host.removeOk servicePath then
    let reloadEff := Effect.spawned (("systemctl").data)
      [if system then [] else ("--user").data, ("daemon-reload").data]
    if (host.spawnRes k).success then
      [Effect.fileRemove servicePath, reloadEff,
       Effect.printOut (("Changes rolled back: Removed '").data ++ servicePath ++ ("'.").data)]
    else
      [Effect.fileRemove servicePath, reloadEff,
       Effect.printErr (("Failed to rollback changes: Could not remove '").data ++ servicePath ++
         ("'. Error: ").data ++ ("Failed to reload daemon while rolling back.").data)]
  else
    [Effect.printErr (("Failed to rollback changes: Could not remove '").data ++ servicePath ++
      ("'. Error: ").data ++ host.removeErrMsg servicePath)]

/-- The tail of `SystemdService.install` after the existence checks and the
linger step: render the unit, then dry-run / system-scope runbook /
user-scope write-reload-enable-start with rollback on failure.  `acc` holds
the effects already performed and `k` the next spawn index. -/
def systemdInstallRest (host : Host) (config : InstallServiceOptions) (onlyGenerate : Bool)
    (servicePath : Str) (acc : List Effect) (k : Nat) : Outcome × List Effect :=
  let serviceFileContent := systemdGenerateConfig host.rt config
  if onlyGenerate then
    (Outcome.normal, acc ++
      [Effect.printOut (("\nThis is a dry-run, nothing will be written to disk or installed.").data),
       Effect.printOut (("\nPath: ").data ++ (" ").data ++ servicePath),
       Effect.printOut (("\nConfiguration:\n").data),
       Effect.printOut serviceFileContent])
  else if config.system then
    (Outcome.normal, acc ++
      [Effect.fileWrite host.tempPath serviceFileContent,
       Effect.printOut (("Service installer do not have (and should not have) root permissions, so the next steps have to be carried out manually.").data),
       Effect.printOut (("\nStep 1: The systemd configuration has been saved to a temporary file, copy this file to the correct location using the following command:").data),
       Effect.printOut (("\n  sudo cp ").data ++ host.tempPath ++ (" ").data ++ servicePath),
       Effect.printOut (("\nStep 2: Reload systemd configuration").data),
       Effect.printOut (("\n  sudo systemctl daemon-reload").data),
       Effect.printOut (("\nStep 3: Enable the service").data),
       Effect.printOut (("\n  sudo systemctl enable ").data ++ config.name),
       Effect.printOut (("\nStep 4: Start the service now").data),
       Effect.printOut (("\n  sudo systemctl start ").data ++ config.name ++ ("\n").data)])
  else
    let flag : Str := if config.system then [] else ("--user").data
    let wEff := Effect.fileWrite servicePath serviceFileContent
    let reloadEff := Effect.spawned (("systemctl").data) [flag, ("daemon-reload").data]
    let r1 := host.spawnRes k
    if r1.success then
      let enableEff := Effect.spawned (("systemctl").data) [flag, ("enable").data, config.name]
      let r2 := host.spawnRes (k + 1)
      if r2.success then
        let startEff := Effect.spawned (("systemctl").data) [flag, ("start").data, config.name]
        let r3 := host.spawnRes (k + 2)
        if r3.success then
          (Outcome.normal, acc ++ [wEff, reloadEff, enableEff, startEff,
            Effect.printOut (("Service '").data ++ config.name ++ ("' installed at '").data ++
              servicePath ++ ("' and enabled.").data)])
        else
          (Outcome.threw (("Failed to start service, rolled back any changes. Error: \n").data ++ r3.stderrText),
           acc ++ [wEff, reloadEff, enableEff, startEff] ++
             systemdRollback host (k + 3) servicePath config.system)
      else
        (Outcome.threw (("Failed to enable service, rolled back any changes. Error: \n").data ++ r2.stderrText),
         acc ++ [wEff, reloadEff, enableEff] ++ systemdRollback host (k + 2) servicePath config.system)
    else
      (Outcome.threw (("Failed to reload daemon, rolled back any changes. Error: \n").data ++ r1.stderrText),
       acc ++ [wEff, reloadEff] ++ systemdRollback host (k + 1) servicePath config.system)

/-- `SystemdService.install`. -/
def systemdInstall (host : Host) (config : InstallServiceOptions) (onlyGenerate : Bool) :
    Outcome × List Effect :=
  let servicePathUser := systemdPathUser config.home config.name
  let servicePathSystem := systemdPathSystem config.name
  let servicePath := if config.system then servicePathSystem else servicePathUser
  if host.fileExists servicePathUser then
    (Outcome.exited 1, [Effect.printErr (("Service '").data ++ config.name ++
      ("' already exists in '").data ++ servicePathUser ++ ("'. Exiting.").data)])
  else if host.fileExists servicePathSystem then
    (Outcome.exited 1, [Effect.printErr (("Service '").data ++ config.name ++
      ("' already exists in '").data ++ servicePathSystem ++ ("'. Exiting.").data)])
  else if ¬ config.system ∧ ¬ onlyGenerate then
    if jsFalsy config.user then
      (Outcome.threw (("Username not found in $USER, must be specified using the --username flag.").data), [])
    else
      let lingerEff := Effect.spawned (("loginctl").data) [("enable-linger").data, jsOptStr config.user]
      if (host.spawnRes 0).success then
        systemdInstallRest host config onlyGenerate servicePath [lingerEff] 1
      else
        (Outcome.threw (("Failed to enable linger for user mode.").data), [lingerEff])
  else
    systemdInstallRest host config onlyGenerate servicePath [] 0

/-- `SystemdService.uninstall`. -/
def systemdUninstall (host : Host) (config : UninstallServiceOptions) : Outcome × List Effect :=
  let servicePathUser := systemdPathUser config.home config.name
  let servicePathSystem := systemdPathSystem config.name
  let servicePath := if config.system then servicePathSystem else servicePathUser
  if host.fileExists servicePath then
    if host.removeOk servicePath then
      (Outcome.normal,
        [Effect.fileRemove servicePath,
         Effect.printOut (("Service '").data ++ config.name ++ ("' uninstalled successfully.").data)] ++
        (if config.system then
          [Effect.printOut (("Please run the following command as root to reload the systemctl daemon:").data),
           Effect.printOut (("sudo systemctl daemon-reload").data)]
        else
          [Effect.printOut (("Please run the following command to reload the systemctl daemon:").data),
           Effect.printOut (("systemctl --user daemon-reload").data)]))
    else
      (Outcome.normal, [Effect.printErr (("Failed to uninstall service: Could not remove '").data ++
        servicePath ++ ("'. Error: ").data ++ host.removeErrMsg servicePath)])
  else
    (Outcome.exited 1, [Effect.printErr (("Service '").data ++ config.name ++
      ("' does not exist. Exiting.").data)])

/-! ### launchd install / uninstall -/

/-- `LaunchdService.install`. -/
def launchdInstall (host : Host) (config : InstallServiceOptions) (onlyGenerate : Bool) :
    Outcome × List Effect :=
  let plistPathUser := launchdPathUser config.home config.name
  let plistPathSystem := launchdPathSystem config.name
  let plistPath := if config.system then plistPathSystem else plistPathUser
  if host.fileExists plistPathUser || host.fileExists plistPathSystem then
    (Outcome.exited 1, [Effect.printErr (("Service '").data ++ config.name ++
      ("' already exists. Exiting.").data)])
  else
    let plistContent := launchdGenerateConfig host.rt config
    if onlyGenerate then
      (Outcome.normal,
        [Effect.printOut (("\nThis is a dry-run, nothing will be written to disk or installed.").data),
         Effect.printOut (("\nPath: ").data ++ (" ").data ++ plistPath),
         Effect.printOut (("\nConfiguration:\n").data),
         Effect.printOut plistContent])
    else
      (Outcome.normal,
        [Effect.mkdirp (dirname plistPath),
         Effect.fileWrite plistPath plistContent,
         Effect.printOut (("Service '").data ++ config.name ++ ("' installed at '").data ++
           plistPath ++ ("'.").data)] ++
        (if config.system then
          [Effect.printOut (("Please run the following command as root to load the service:").data),
           Effect.printOut (("sudo launchctl load ").data ++ plistPath)]
        else
          [Effect.printOut (("Please run the following command to load the service:").data),
           Effect.printOut (("launchctl load ").data ++ plistPath)]))

/-- `LaunchdService.uninstall`. -/
def launchdUninstall (host : Host) (config : UninstallServiceOptions) : Outcome × List Effect :=
  let plistPathUser := launchdPathUser config.home config.name
  let plistPathSystem := launchdPathSystem config.name
  let plistPath := if config.system then plistPathSystem else plistPathUser
  if host.fileExists plistPath then
    if host.removeOk plistPath then
      (Outcome.normal,
        [Effect.fileRemove plistPath,
         Effect.printOut (("Service '").data ++ config.name ++ ("' uninstalled successfully.").data)] ++
        (if config.system then
          [Effect.printOut (("Please run the following command as root to unload the service (if it's running):").data),
           Effect.printOut (("sudo launchctl unload ").data ++ plistPath)]
        else
          [Effect.printOut (("Please run the following command to unload the service (if it's running):").data),
           Effect.printOut (("launchctl unload ").data ++ plistPath)]))
    else
      (Outcome.normal, [Effect.printErr (("Failed to uninstall service: Could not remove '").data ++
        plistPath ++ ("'. Error: ").data ++ host.removeErrMsg plistPath)])
  else
    (Outcome.exited 1, [Effect.printErr (("Service '").data ++ config.name ++
      ("' does not exist. Exiting.").data)])

/-! ### sysvinit install and upstart install / uninstall -/

/-- `InitService.install`. -/
def initInstall (host : Host) (config : InstallServiceOptions) (onlyGenerate : Bool) :
    Outcome × List Effect :=
  let scriptPath := initScriptPath config.name
  if host.fileExists scriptPath then
    (Outcome.exited 1, [Effect.printErr (("Service '").data ++ config.name ++
      ("' already exists in '").data ++ scriptPath ++ ("'. Exiting.").data)])
  else
    let initScriptContent := initGenerateConfig host.rt config
    if onlyGenerate then
      (Outcome.normal,
        [Effect.printOut (("\nThis is a dry-run, nothing will be written to disk or installed.").data),
         Effect.printOut (("\nPath: ").data ++ (" ").data ++ scriptPath),
         Effect.printOut (("\nConfiguration:\n").data),
         Effect.printOut initScriptContent])
    else
      (Outcome.normal,
        [Effect.fileWrite host.tempPath initScriptContent,
         Effect.printOut (("\nThe service installer does not have (and should not have) root permissions, so the next steps have to be carried out manually.").data),
         Effect.printOut (("\nStep 1: The init script has been saved to a temporary file, copy this file to the correct location using the following command:").data),
         Effect.printOut (("\n  sudo cp ").data ++ host.tempPath ++ (" ").data ++ scriptPath),
         Effect.printOut (("\nStep 2: Make the script executable:").data),
         Effect.printOut (("\n  sudo chmod +x ").data ++ scriptPath),
         Effect.printOut (("\nStep 3: Enable the service to start at boot:").data),
         Effect.printOut (("\n  sudo update-rc.d ").data ++ config.name ++ (" defaults").data),
         Effect.printOut (("\nStep 4: Start the service now").data),
         Effect.printOut (("\n  sudo service ").data ++ config.name ++ (" start").data)])

/-- `UpstartService.install`. -/
def upstartInstall (host : Host) (config : InstallServiceOptions) (onlyGenerate : Bool) :
    Outcome × List Effect :=
  let jobPath := upstartFilePath config.name
  if host.fileExists jobPath then
    (Outcome.exited 1, [Effect.printErr (("Service '").data ++ config.name ++
      ("' already exists in '").data ++ jobPath ++ ("'. Exiting.").data)])
  else
    let upstartFileContent := upstartGenerateConfig host.rt config
    if onlyGenerate then
      (Outcome.normal,
        [Effect.printOut (("\nThis is a dry-run, nothing will be written to disk or installed.").data),
         Effect.printOut (("\nPath: ").data ++ (" ").data ++ jobPath),
         Effect.printOut (("\nConfiguration:\n").data),
         Effect.printOut upstartFileContent])
    else
      (Outcome.normal,
        [Effect.fileWrite host.tempPath upstartFileContent,
         Effect.printOut (("Service installer do not have (and should not have) root permissions, so the next steps have to be carried out manually.").data),
         Effect.printOut (("\nStep 1: The upstart configuration has been saved to a temporary file, copy this file to the correct location using the following command:").data),
         Effect.printOut (("\n  sudo cp ").data ++ host.tempPath ++ (" ").data ++ jobPath),
         Effect.printOut (("\nStep 2: Start the service now").data),
         Effect.printOut (("\n  sudo start ").data ++ config.name ++ ("\n").data)])

/-- `UpstartService.uninstall`. -/
def upstartUninstall (host : Host) (config : UninstallServiceOptions) : Outcome × List Effect :=
  let jobPath := upstartFilePath config.name
  if host.fileExists jobPath then
    if host.removeOk jobPath then
      (Outcome.normal,
        [Effect.fileRemove jobPath,
         Effect.printOut (("Service '").data ++ config.name ++ ("' uninstalled successfully.").data),
         Effect.printOut (("Please run the following command as root to stop the service (if it's running):").data),
         Effect.printOut (("sudo stop ").data ++ config.name)])
    else
      (Outcome.normal, [Effect.printErr (("Failed to uninstall service: Could not remove '").data ++
        jobPath ++ ("'. Error: ").data ++ host.removeErrMsg jobPath)])
  else
    (Outcome.exited 1, [Effect.printErr (("Service '").data ++ config.name ++
      ("' does not exist. Exiting.").data)])

/-! ### windows install -/

/-- `WindowsService.install`. -/
def windowsInstall (host : Host) (config : InstallServiceOptions) (onlyGenerate : Bool) :
    Outcome × List Effect :=
  let serviceBatchPath := windowsBatchPath config.home config.name
  if host.fileExists serviceBatchPath then
    (Outcome.exited 1, [Effect.printErr (("Service '").data ++ config.name ++
      ("' already exists in '").data ++ serviceBatchPath ++ ("'. Exiting.").data)])
  else
    let batchFileContent := windowsGenerateConfig host.rt config
    if onlyGenerate then
      (Outcome.normal,
        [Effect.printOut (("\nThis is a dry-run, nothing will be written to disk or installed.").data),
         Effect.printOut (("\nPath: ").data ++ (" ").data ++ serviceBatchPath),
         Effect.printOut (("\nConfiguration:\n").data),
         Effect.printOut batchFileContent])
    else
      let serviceDirectory := jsOptStr config.home ++ ("/.service/").data
      let dirEffs := if host.fileExists serviceDirectory then [] else [Effect.mkdirp serviceDirectory]
      let scArgs := ("create ").data ++ config.name ++ (" binPath=\"cmd.exe /C ").data ++
        serviceBatchPath ++ ("\" start= auto DisplayName= \"").data ++ config.name ++
        ("\" obj= LocalSystem").data
      let psEff := Effect.spawned (("powershell.exe").data)
        [("-Command").data, ("Start-Process").data, ("sc.exe").data, ("-ArgumentList").data,
         ("'").data ++ scArgs ++ ("'").data, ("-Verb").data, ("RunAs").data]
      let r0 := host.spawnRes 0
      if r0.success then
        (Outcome.normal, dirEffs ++
          [Effect.fileWrite serviceBatchPath batchFileContent, psEff,
           Effect.printOut (("Service '").data ++ config.name ++ ("' installed at '").data ++
             serviceBatchPath ++ ("' and enabled.").data)])
      else
        (Outcome.threw (("Failed to install service. Error: \n").data ++ r0.stderrText),
         dirEffs ++ [Effect.fileWrite serviceBatchPath batchFileContent, psEff] ++
           (if host.removeOk serviceBatchPath then
             [Effect.fileRemove serviceBatchPath,
              Effect.printOut (("Changes rolled back: Removed '").data ++ serviceBatchPath ++ ("'.").data)]
           else
             [Effect.printErr (("Failed to rollback changes: Could not remove '").data ++
               serviceBatchPath ++ ("'. Error: ").data ++ host.removeErrMsg serviceBatchPath)]))

/-! ### Init-system detector and dispatcher registry (`lib/service.ts`) -/

/-- JS `String.prototype.includes`. -/
def jsIncludes (s pat : Str) : Bool := decide (pat <:+: s)

/-- What `Deno.build.os` reports, as far as the detector distinguishes it. -/
inductive OSKind where
  | darwin
  | windows
  | other
deriving DecidableEq

/-- The two fields of `Deno.FileInfo` the detector reads. -/
structure StatInfo where
  isFile : Bool
  isDirectory : Bool

/-- The upstart disambiguation of `detectInitSystem`:
`Deno.statSync("/sbin/initctl").isFile && Deno.statSync("/etc/init").isDirectory`,
where a `none` stat models `statSync` throwing (caught, yielding sysvinit). -/
def upstartProbe (s1 s2 : Option StatInfo) : Bool :=
  match s1 with
  | none => false
  | some i1 =>
    if i1.isFile then
      match s2 with
      | none => false
      | some i2 => i2.isDirectory
    else false

/-- `detectInitSystem` of `lib/service.ts`, as a function of the host OS,
the stdout of `ps -p 1 -o comm=`, and the two stat probes. -/
def detectInitSystem (os : OSKind) (psOut : Str) (s1 s2 : Option StatInfo) : Except Str Str :=
  match os with
  | .darwin => Except.ok (("launchd").data)
  | .windows => Except.ok (("windows").data)
  | .other =>
    if jsIncludes psOut (("systemd").data) then Except.ok (("systemd").data)
    else if jsIncludes psOut (("init").data) then
      if upstartProbe s1 s2 then Except.ok (("upstart").data) else Except.ok (("sysvinit").data)
    else if jsIncludes psOut (("openrc").data) then Except.ok (("openrc").data)
    else if jsIncludes psOut (("docker-init").data) then Except.ok (("dockerinit").data)
    else Except.error (("Unsupported init system.").data)

/-- The five manager implementations, as registry values. -/
inductive ManagerImpl where
  | systemdM
  | initM
  | upstartM
  | launchdM
deriving DecidableEq

/-- The registrations performed at module load of `lib/service.ts`:
`serviceManager.register(key, impl)` for the five built-ins. -/
def registeredManagers : List (Str × ManagerImpl) :=
  [((("systemd").data), ManagerImpl.systemdM),
   ((("sysvinit").data), ManagerImpl.initM),
   ((("docker-init").data), ManagerImpl.initM),
   ((("upstart").data), ManagerImpl.upstartM),
   ((("launchd").data), ManagerImpl.launchdM)]

/-- `this.managers.get(initSystem)` of the `ServiceManager` registry. -/
def lookupManager (id : Str) : Option ManagerImpl :=
  List.lookup id registeredManagers

/-! ### CLI argument checking (`lib/cli/args.ts`, `lib/cli/main.ts`) -/

/-- The parsed argument object, with the fields `checkArguments` and
`main` read.  `positional` is `args._`, `dashdash` is `args["--"]`, and
the option-valued fields are `undefined` when absent. -/
structure CliArgs where
  positional : List Str
  help : Bool
  system : Option Str
  name : Option Str
  cwd : Option Str
  cmd : Option Str
  user : Option Str
  home : Option Str
  force : Option Str
  path : Option (List Str)
  env : Option (List Str)
  dashdash : List Str

/-- `validBaseArguments` of `checkArguments`. -/
def validBaseArguments : List Str :=
  [(("install").data), (("uninstall").data), (("generate").data)]

/-- The env-entry validation loop of `checkArguments`: it throws (one
constant message) exactly when `args.env` is a nonempty array containing
an entry without an equals sign. -/
def jsEnvBad : Option (List Str) → Bool
  | some es => decide (0 < es.length) && es.any (fun e => decide ('=' ∉ e))
  | none => false

/-- `checkArguments` of `lib/cli/args.ts`: validates the base argument,
requires a command unless uninstalling, and rejects `env` entries without
an equals sign (throw modelled as `Except.error`). -/
def checkArguments (args : CliArgs) : Except Str CliArgs :=
  let baseArgument := args.positional.head?
  let badBase :=
    match baseArgument with
    | some b => decide (b ∉ validBaseArguments)
    | none => false
  if badBase then
    Except.error ((("Invalid base argument: ").data) ++
      (match baseArgument with
       | some b => b
       | none => []))
  else if ¬ (baseArgument = some (("uninstall").data)) ∧ jsFalsy args.cmd ∧ args.dashdash.isEmpty then
    Except.error (("Specify a command using '--cmd'").data)
  else if jsEnvBad args.env then
    Except.error (("Environment variables must be specified like '--env NAME=VALUE'.").data)
  else Except.ok args

/-- What `main` of `lib/cli/main.ts` decides to do after parsing: exit
with an error (no manager touched), print help, dispatch an
install/generate, or dispatch an uninstall. -/
inductive MainAction where
  | exitError (msg : Str)
  | showHelp
  | runInstall (onlyGenerate : Bool) (force : Option Str)
  | runUninstall
  | unknownBase

/-- The dispatch decision of `main`: `checkArguments` failure exits
before any manager operation; otherwise the base argument selects the
operation. -/
def mainAction (args : CliArgs) : MainAction :=
  match checkArguments args with
  | Except.error e => MainAction.exitError e
  | Except.ok args =>
    let baseArgument := args.positional.head?
    if args.help || baseArgument.isNone then MainAction.showHelp
    else if baseArgument = some (("install").data) ∨ baseArgument = some (("generate").data) then
      MainAction.runInstall (baseArgument = some (("generate").data)) args.force
    else if baseArgument = some (("uninstall").data) then MainAction.runUninstall
    else MainAction.unknownBase

/-! ### String lemmas -/

theorem isInfixAppendL {p x : Str} (y : Str) (h : p <:+: x) : p <:+: x ++ y := by
  obtain ⟨s, t, rfl⟩ := h
  exact ⟨s, t ++ y, by simp⟩

theorem isInfixAppendR (x : Str) {p y : Str} (h : p <:+: y) : p <:+: x ++ y := by
  obtain ⟨s, t, rfl⟩ := h
  exact ⟨x ++ s, t, by simp⟩

/-- Every occurrence of `p` inside `x ++ y` lies in `x`, lies in `y`, or
straddles the boundary as a nonempty suffix of `x` glued to a nonempty
prefix of `y`. -/
theorem isInfixSplit {p x y : Str} (h : p <:+: x ++ y) :
    p <:+: x ∨ p <:+: y ∨ ∃ s t, p = s ++ t ∧ s ≠ [] ∧ t ≠ [] ∧ s <:+ x ∧ t <+: y := by
  induction x with
  | nil => exact Or.inr (Or.inl (by simpa using h))
  | cons c x ih =>
    rw [List.cons_append] at h
    rcases List.infix_cons_iff.mp h with hp | hi
    · by_cases hlen : p.length ≤ (c :: x).length
      · left
        exact List.IsPrefix.isInfix
          (List.prefix_of_prefix_length_le hp (List.prefix_append _ _) (by simpa using hlen))
      · have hxp : (c :: x) <+: p :=
          List.prefix_of_prefix_length_le (List.prefix_append _ _) hp (by omega)
        obtain ⟨t, rfl⟩ := hxp
        have ht : t <+: y := by
          have h2 : (c :: x) ++ t <+: (c :: x) ++ y := by simpa using hp
          exact (List.prefix_append_right_inj (c :: x)).mp h2
        refine Or.inr (Or.inr ⟨c :: x, t, rfl, by simp, ?_, List.suffix_rfl, ht⟩)
        intro htnil
        subst htnil
        simp at hlen
    · rcases ih hi with h1 | h2 | ⟨s, t, rfl, hs, ht, hsx, hty⟩
      · exact Or.inl (List.infix_cons h1)
      · exact Or.inr (Or.inl h2)
      · exact Or.inr (Or.inr ⟨s, t, rfl, hs, ht, hsx.trans (List.suffix_cons c x), hty⟩)

theorem splitSep_ne_nil (sep : Char) (s : Str) : splitSep sep s ≠ [] := by
  cases s with
  | nil => simp [splitSep]
  | cons c cs =>
    simp only [splitSep]
    cases hcs : splitSep sep cs with
    | nil => simp
    | cons r rs => by_cases hc : c = sep <;> simp [hc]

theorem splitSep_no_sep {sep : Char} {x : Str} (h : sep ∉ x) : splitSep sep x = [x] := by
  induction x with
  | nil => rfl
  | cons c cs ih =>
    simp only [List.mem_cons, not_or] at h
    simp only [splitSep, ih h.2]
    rw [if_neg (fun hc => h.1 hc.symm)]

theorem splitSep_append_cons {sep : Char} {x y : Str} (h : sep ∉ x) :
    splitSep sep (x ++ sep :: y) = x :: splitSep sep y := by
  induction x with
  | nil =>
    rw [List.nil_append]
    simp only [splitSep]
    cases hy : splitSep sep y with
    | nil => exact absurd hy (splitSep_ne_nil sep y)
    | cons r rs => simp
  | cons c cs ih =>
    simp only [List.mem_cons, not_or] at h
    rw [List.cons_append]
    simp only [splitSep]
    rw [ih h.2]
    simp only []
    rw [if_neg (fun hc => h.1 hc.symm)]

/-- Splitting on the separator recovers the parts that were joined with
it, provided the parts are nonempty as a list and separator-free. -/
theorem splitSep_jsJoin {sep : Char} {ps : List Str} (hne : ps ≠ [])
    (h : ∀ p ∈ ps, sep ∉ p) : splitSep sep (jsJoin [sep] ps) = ps := by
  induction ps with
  | nil => exact absurd rfl hne
  | cons p ps ih =>
    cases ps with
    | nil => exact splitSep_no_sep (h p (by simp))
    | cons q qs =>
      have hjoin : jsJoin [sep] (p :: q :: qs) = p ++ sep :: jsJoin [sep] (q :: qs) := by
        simp [jsJoin]
      rw [hjoin, splitSep_append_cons (h p (by simp)), ih (by simp) (fun r hr => h r (by simp [hr]))]

/-- A first-occurrence replacement skips over any leading segment that
does not contain the pattern's first character. -/
theorem replaceFirst_append_left {pc : Char} {pat' x y rep : Str} (hx : pc ∉ x) :
    replaceFirst (x ++ y) (pc :: pat') rep = x ++ replaceFirst y (pc :: pat') rep := by
  induction x with
  | nil => simp
  | cons c cs ih =>
    simp only [List.mem_cons, not_or] at hx
    rw [List.cons_append]
    simp only [replaceFirst]
    rw [if_neg ?hno, ih hx.2]
    · rfl
    case hno =>
      intro hpre
      have hq := List.isPrefixOf_iff_prefix.mp hpre
      rw [List.cons_prefix_cons] at hq
      exact hx.1 hq.1

/-- A first-occurrence replacement fires immediately on a string that
starts with the pattern. -/
theorem replaceFirst_exact {pat B rep : Str} (hp : pat ≠ []) :
    replaceFirst (pat ++ B) pat rep = rep ++ B := by
  cases pat with
  | nil => exact absurd rfl hp
  | cons pc pat' =>
    rw [List.cons_append]
    simp only [replaceFirst]
    rw [if_pos (List.isPrefixOf_iff_prefix.mpr ⟨B, by simp⟩)]
    congr 1
    have hsplit : (pc :: (pat' ++ B)) = (pc :: pat') ++ B := by simp
    rw [hsplit, List.drop_left]

/-! ### Concrete fixtures (the inputs of the repository's own test file) -/

/-- A concrete runtime environment: `Deno.execPath() = /usr/bin/deno`,
`Deno.cwd() = /tmp`, `HOME=/home/hostuser`. -/
def rtFix : RtEnv :=
  ⟨("/usr/bin/deno").data, ("/tmp").data, some (("/home/hostuser").data)⟩

/-- The install options of the `generateConfig` test in the repository's
systemd test file. -/
def optsFix : InstallServiceOptions :=
  { system := false
    name := ("test-service").data
    cmd := ("deno run --allow-net server.ts").data
    user := some (("testuser").data)
    home := some (("/home/testuser").data)
    cwd := none
    path := some [("/usr/local/bin").data]
    env := none }

/-! ### Claim C1 -/

/-- C1, counterexample: on the test-fixture input, systemd's
`generateConfig` renders the PATH with the runtime executable first and
the caller-supplied `/usr/local/bin` last — not, as the claim states,
with the caller-supplied entries first.  The artifact contains the
runtime-first `Environment=` line and does not contain the caller-first
PATH the claim requires. -/
theorem claimC1_counterexample :
    systemdEnvPath rtFix optsFix = ("PATH=/usr/bin/deno:/home/testuser/.deno/bin:/usr/local/bin").data
    ∧ systemdEnvPath rtFix optsFix ≠ ("PATH=/usr/local/bin:/usr/bin/deno:/home/testuser/.deno/bin").data
    ∧ ("Environment=PATH=/usr/bin/deno:/home/testuser/.deno/bin:/usr/local/bin").data <:+:
        systemdGenerateConfig rtFix optsFix
    ∧ ¬ (("PATH=/usr/local/bin:/usr/bin/deno:/home/testuser/.deno/bin").data <:+:
        systemdGenerateConfig rtFix optsFix) := by
  refine ⟨by decide, by decide, by decide, by decide⟩

/-! ### Claim C2 -/

/-- C2 (code bug): the systemd template hard-codes
`WantedBy=multi-user.target`, so on the repository's own user-scope test
input the rendered unit still targets `multi-user.target` and never
`default.target` (which the repository's test file asserts); the
system-scope half of the claim (a `User=` line naming the configured
user, `WantedBy=multi-user.target`) does hold, and user scope does omit
`User=`. -/
theorem claimC2_target_eval :
    ("WantedBy=multi-user.target").data <:+: systemdGenerateConfig rtFix optsFix
    ∧ ¬ (("WantedBy=default.target").data <:+: systemdGenerateConfig rtFix optsFix)
    ∧ ¬ (("User=").data <:+: systemdGenerateConfig rtFix optsFix)
    ∧ ("User=testuser").data <:+: systemdGenerateConfig rtFix { optsFix with system := true }
    ∧ ("WantedBy=multi-user.target").data <:+:
        systemdGenerateConfig rtFix { optsFix with system := true } := by
  refine ⟨by decide, by decide, by decide, by decide, by decide⟩

/-! ### Claim C3 -/

/-- C3, counterexample: a PID-1 command name containing "docker-init"
also contains "init", so the detector classifies it in the `init` branch
and returns `sysvinit` (here: with both stat probes failing), not the
registered key `docker-init` the claim asserts. -/
theorem claimC3_counterexample :
    detectInitSystem OSKind.other (("docker-init").data) none none =
      Except.ok (("sysvinit").data)
    ∧ (("sysvinit").data : Str) ≠ ("docker-init").data := by
  refine ⟨by rfl, by decide⟩

/-- C3, amended: on a non-macOS, non-Windows host the detector classifies
the PID-1 command name by substring in the precedence order systemd,
init (upstart exactly when the initctl file and `/etc/init` directory
probes both succeed, else sysvinit), openrc, docker-init — but any output
containing "docker-init" necessarily contains "init" and is therefore
classified by the earlier init branch as upstart or sysvinit; the
docker-init branch is unreachable, and even its return value
`dockerinit` differs from the key `docker-init` under which the sysvinit
manager is registered (so it has no registered manager); outputs
matching none of the substrings raise the unsupported-init-system
error. -/
theorem claimC3_amended (out : Str) (s1 s2 : Option StatInfo) :
    (jsIncludes out (("systemd").data) = true →
      detectInitSystem OSKind.other out s1 s2 = Except.ok (("systemd").data))
    ∧ (jsIncludes out (("systemd").data) = false → jsIncludes out (("init").data) = true →
      detectInitSystem OSKind.other out s1 s2 =
        Except.ok (if upstartProbe s1 s2 then ("upstart").data else ("sysvinit").data))
    ∧ (jsIncludes out (("systemd").data) = false → jsIncludes out (("init").data) = false →
      jsIncludes out (("openrc").data) = true →
      detectInitSystem OSKind.other out s1 s2 = Except.ok (("openrc").data))
    ∧ (jsIncludes out (("docker-init").data) = true → jsIncludes out (("init").data) = true)
    ∧ (jsIncludes out (("systemd").data) = false → jsIncludes out (("docker-init").data) = true →
      detectInitSystem OSKind.other out s1 s2 =
        Except.ok (if upstartProbe s1 s2 then ("upstart").data else ("sysvinit").data))
    ∧ (∀ r, detectInitSystem OSKind.other out s1 s2 = Except.ok r → r ≠ ("dockerinit").data)
    ∧ lookupManager (("docker-init").data) = some ManagerImpl.initM
    ∧ lookupManager (("dockerinit").data) = none
    ∧ (jsIncludes out (("systemd").data) = false → jsIncludes out (("init").data) = false →
      jsIncludes out (("openrc").data) = false →
      detectInitSystem OSKind.other out s1 s2 = Except.error (("Unsupported init system.").data)) := by
  have hdi : jsIncludes out (("docker-init").data) = true → jsIncludes out (("init").data) = true := by
    intro hinc
    have h1 : (("docker-init").data : Str) <:+: out := of_decide_eq_true hinc
    have h2 : (("init").data : Str) <:+: ("docker-init").data := by decide
    exact decide_eq_true (h2.trans h1)
  refine ⟨?_, ?_, ?_, hdi, ?_, ?_, by decide, by decide, ?_⟩
  · intro h1
    simp [detectInitSystem, h1]
  · intro h1 h2
    by_cases hp : upstartProbe s1 s2 = true
    · simp [detectInitSystem, h1, h2, hp]
    · rw [Bool.not_eq_true] at hp
      simp [detectInitSystem, h1, h2, hp]
  · intro h1 h2 h3
    simp [detectInitSystem, h1, h2, h3]
  · intro h1 h2
    have h3 := hdi h2
    by_cases hp : upstartProbe s1 s2 = true
    · simp [detectInitSystem, h1, h3, hp]
    · rw [Bool.not_eq_true] at hp
      simp [detectInitSystem, h1, h3, hp]
  · intro r hr
    by_cases h1 : jsIncludes out (("systemd").data) = true
    · simp [detectInitSystem, h1] at hr
      subst hr
      decide
    · rw [Bool.not_eq_true] at h1
      by_cases h2 : jsIncludes out (("init").data) = true
      · by_cases hp : upstartProbe s1 s2 = true
        · simp [detectInitSystem, h1, h2, hp] at hr
          subst hr
          decide
        · rw [Bool.not_eq_true] at hp
          simp [detectInitSystem, h1, h2, hp] at hr
          subst hr
          decide
      · rw [Bool.not_eq_true] at h2
        have h4 : jsIncludes out (("docker-init").data) = false := by
          cases h5 : jsIncludes out (("docker-init").data) with
          | false => rfl
          | true => exact absurd (hdi h5) (by simp [h2])
        by_cases h3 : jsIncludes out (("openrc").data) = true
        · simp [detectInitSystem, h1, h2, h3] at hr
          subst hr
          decide
        · rw [Bool.not_eq_true] at h3
          simp [detectInitSystem, h1, h2, h3, h4] at hr
  · intro h1 h2 h3
    have h4 : jsIncludes out (("docker-init").data) = false := by
      cases h5 : jsIncludes out (("docker-init").data) with
      | false => rfl
      | true => exact absurd (hdi h5) (by simp [h2])
    simp [detectInitSystem, h1, h2, h3, h4]

/-- C3, witness: instantiating the amended theorem on the literal PID-1
output "docker-init" with failing stat probes yields `sysvinit`. -/
theorem claimC3_witness :
    detectInitSystem OSKind.other (("docker-init").data) none none =
      Except.ok (("sysvinit").data) := by
  have h := (claimC3_amended (("docker-init").data) none none).2.2.2.2.1 (by decide) (by decide)
  simpa using h

/-! ### Claim C9 -/

/-- C9: when `path` is absent, the optional-chained
`options.path?.join(":")` interpolates as the literal text "undefined",
so launchd's and init's `servicePath` begins with "undefined:" followed
by the runtime executable path; the rendered artifacts contain
`<string>undefined:` (launchd) and `PATH=undefined:` (init) on the
concrete fixture. -/
theorem claimC9_undefined_path (rt : RtEnv) (opts : InstallServiceOptions)
    (hpath : opts.path = none) :
    launchdServicePathVal rt opts =
      ("undefined:").data ++ rt.execPath ++ (":").data ++ jsOptStr opts.home ++ ("/.deno/bin").data
    ∧ (("undefined:").data ++ rt.execPath) <+: launchdServicePathVal rt opts
    ∧ initServicePathVal rt opts =
      ("undefined:").data ++ rt.execPath ++ (":").data ++ jsOptStr rt.homeEnv ++ ("/.deno/bin").data
    ∧ (("undefined:").data ++ rt.execPath) <+: initServicePathVal rt opts
    ∧ ("<string>undefined:").data <:+: launchdGenerateConfig rtFix { optsFix with path := none }
    ∧ ("PATH=undefined:").data <:+: initGenerateConfig rtFix { optsFix with path := none } := by
  have hu : (("undefined:").data : Str) = ("undefined").data ++ (":").data := by decide
  have h1 : launchdServicePathVal rt opts =
      ("undefined:").data ++ rt.execPath ++ (":").data ++ jsOptStr opts.home ++ ("/.deno/bin").data := by
    simp [launchdServicePathVal, hpath, jsOptJoin, hu, List.append_assoc]
  have h2 : initServicePathVal rt opts =
      ("undefined:").data ++ rt.execPath ++ (":").data ++ jsOptStr rt.homeEnv ++ ("/.deno/bin").data := by
    simp [initServicePathVal, hpath, jsOptJoin, hu, List.append_assoc]
  refine ⟨h1, ?_, h2, ?_, by decide, by decide⟩
  · rw [h1]
    exact ⟨(":").data ++ jsOptStr opts.home ++ ("/.deno/bin").data, by simp⟩
  · rw [h2]
    exact ⟨(":").data ++ jsOptStr rt.homeEnv ++ ("/.deno/bin").data, by simp⟩

/-- C9, witness: the fixture options with `path` removed. -/
theorem claimC9_witness :
    launchdServicePathVal rtFix { optsFix with path := none } =
      ("undefined:/usr/bin/deno:/home/testuser/.deno/bin").data := by
  have h := (claimC9_undefined_path rtFix { optsFix with path := none } rfl).1
  rw [h]
  decide

/-! ### Claim C7 -/

/-- C7: any `env` entry without an equals sign makes `checkArguments`
fail, and therefore `main` exits with that validation error before any
manager operation is dispatched. -/
theorem claimC7_env_validation (args : CliArgs) (es : List Str) (e : Str)
    (henv : args.env = some es) (he : e ∈ es) (heq : '=' ∉ e) :
    (∃ msg, checkArguments args = Except.error msg)
    ∧ (∃ msg, mainAction args = MainAction.exitError msg) := by
  have hmsg : ∃ msg, checkArguments args = Except.error msg := by
    have hlen : 0 < es.length := List.length_pos.mpr (List.ne_nil_of_mem he)
    have hany : es.any (fun x => decide ('=' ∉ x)) = true :=
      List.any_eq_true.mpr ⟨e, he, by simp [heq]⟩
    have hbad : jsEnvBad args.env = true := by
      rw [henv]
      simp only [jsEnvBad, hany, Bool.and_true, decide_eq_true_eq]
      exact hlen
    cases hres : checkArguments args with
    | error m => exact ⟨m, rfl⟩
    | ok a =>
      exfalso
      unfold checkArguments at hres
      rw [hbad] at hres
      simp only [eq_self_iff_true, if_true] at hres
      split at hres
      · simp at hres
      · split at hres
        · simp at hres
        · simp at hres
  obtain ⟨m, hm⟩ := hmsg
  exact ⟨⟨m, hm⟩, ⟨m, by simp [mainAction, hm]⟩⟩

/-- The concrete parsed-argument fixture for the C7 witness: an
`install` invocation whose single `env` entry "FOO" lacks an equals
sign. -/
def argsFix : CliArgs :=
  { positional := [("install").data], help := false, system := none, name := none,
    cwd := none, cmd := some (("deno").data), user := none, home := none, force := none,
    path := none, env := some [("FOO").data], dashdash := [] }

/-- C7, witness: the fixture argument object is rejected before dispatch. -/
theorem claimC7_witness :
    argsFix.env = some [("FOO").data] ∧ (("FOO").data : Str) ∈ [(("FOO").data : Str)] ∧
    '=' ∉ (("FOO").data : Str) ∧
    ((∃ msg, checkArguments argsFix = Except.error msg)
    ∧ (∃ msg, mainAction argsFix = MainAction.exitError msg)) := by
  exact ⟨rfl, by decide, by decide,
    claimC7_env_validation argsFix [("FOO").data] (("FOO").data) rfl (by decide) (by decide)⟩

/-! ### Claim C1, amended -/

theorem jsJoin_append {sep : Str} {ps qs : List Str} (hp : ps ≠ []) (hq : qs ≠ []) :
    jsJoin sep (ps ++ qs) = jsJoin sep ps ++ sep ++ jsJoin sep qs := by
  induction ps with
  | nil => exact absurd rfl hp
  | cons p ps ih =>
    cases ps with
    | nil =>
      cases qs with
      | nil => exact absurd rfl hq
      | cons q qs' => simp [jsJoin, List.append_assoc]
    | cons r rs =>
      have hih := ih (by simp)
      simp only [List.cons_append] at hih ⊢
      simp only [jsJoin]
      rw [hih]
      simp [List.append_assoc]

/-- C1, amended: with a non-empty caller-supplied path list (and
separator-free components), the PATH strings the five managers render
split into these exact component sequences: systemd, upstart and windows
put the runtime executable path and the home bin directory first and
the caller-supplied entries last (upstart reads home from the HOME
environment variable; windows starts from `%PATH%`, uses semicolons and
`\.deno\bin`), while launchd and sysvinit put the caller-supplied entries
first (sysvinit reads home from the HOME environment variable). -/
theorem claimC1_amended (rt : RtEnv) (opts : InstallServiceOptions) (h hme : Str)
    (ps : List Str)
    (hpath : opts.path = some ps) (hps : ps ≠ [])
    (hhome : opts.home = some h)
    (henv : rt.homeEnv = some hme)
    (hd : ':' ∉ rt.execPath) (hh : ':' ∉ h) (hm : ':' ∉ hme)
    (hp : ∀ p ∈ ps, ':' ∉ p)
    (hdw : ';' ∉ rt.execPath) (hhw : ';' ∉ h) (hpw : ∀ p ∈ ps, ';' ∉ p) :
    splitSep ':' (systemdEnvPath rt opts) =
      (("PATH=").data ++ rt.execPath) :: (h ++ ("/.deno/bin").data) :: ps
    ∧ splitSep ':' (upstartEnvPath rt opts) =
      rt.execPath :: (hme ++ ("/.deno/bin").data) :: ps
    ∧ splitSep ';' (windowsEnvPath rt opts) =
      ("%PATH%").data :: rt.execPath :: (h ++ ("\\.deno\\bin").data) :: ps
    ∧ splitSep ':' (launchdServicePathVal rt opts) =
      ps ++ [rt.execPath, h ++ ("/.deno/bin").data]
    ∧ splitSep ':' (initServicePathVal rt opts) =
      ps ++ [rt.execPath, hme ++ ("/.deno/bin").data] := by
  obtain ⟨q, qs, rfl⟩ : ∃ q qs, ps = q :: qs := by
    cases ps with
    | nil => exact absurd rfl hps
    | cons q qs => exact ⟨q, qs, rfl⟩
  have hcolon : ((":").data : Str) = [':'] := by decide
  have hsemi : ((";").data : Str) = [';'] := by decide
  have hPATHeq : ((("PATH=").data : Str)) ++ rt.execPath = ("PATH=").data ++ rt.execPath := rfl
  refine ⟨?_, ?_, ?_, ?_, ?_⟩
  · have heq : systemdEnvPath rt opts =
        jsJoin [':'] ((("PATH=").data ++ rt.execPath) :: (h ++ ("/.deno/bin").data) :: q :: qs) := by
      simp [systemdEnvPath, hpath, hhome, jsOptStr, jsJoin, hcolon, List.append_assoc]
    rw [heq]
    refine splitSep_jsJoin (by simp) ?_
    intro p hpm
    simp only [List.mem_cons] at hpm
    rcases hpm with rfl | rfl | h1
    · intro hc
      rcases List.mem_append.mp hc with hc | hc
      · revert hc
        decide
      · exact hd hc
    · intro hc
      rcases List.mem_append.mp hc with hc | hc
      · exact hh hc
      · revert hc
        decide
    · exact hp p (List.mem_cons.mpr h1)
  · have heq : upstartEnvPath rt opts =
        jsJoin [':'] (rt.execPath :: (hme ++ ("/.deno/bin").data) :: q :: qs) := by
      simp [upstartEnvPath, hpath, henv, jsOptStr, jsJoin, hcolon, List.append_assoc]
    rw [heq]
    refine splitSep_jsJoin (by simp) ?_
    intro p hpm
    simp only [List.mem_cons] at hpm
    rcases hpm with rfl | rfl | h1
    · exact hd
    · intro hc
      rcases List.mem_append.mp hc with hc | hc
      · exact hm hc
      · revert hc
        decide
    · exact hp p (List.mem_cons.mpr h1)
  · have heq : windowsEnvPath rt opts =
        jsJoin [';'] ((("%PATH%").data : Str) :: rt.execPath ::
          (h ++ ("\\.deno\\bin").data) :: q :: qs) := by
      simp [windowsEnvPath, hpath, hhome, jsOptStr, jsJoin, hsemi, List.append_assoc]
    rw [heq]
    refine splitSep_jsJoin (by simp) ?_
    intro p hpm
    simp only [List.mem_cons] at hpm
    rcases hpm with rfl | rfl | rfl | h1
    · decide
    · exact hdw
    · intro hc
      rcases List.mem_append.mp hc with hc | hc
      · exact hhw hc
      · revert hc
        decide
    · exact hpw p (List.mem_cons.mpr h1)
  · have heq : launchdServicePathVal rt opts =
        jsJoin [':'] ((q :: qs) ++ [rt.execPath, h ++ ("/.deno/bin").data]) := by
      rw [jsJoin_append (by simp) (by simp)]
      simp [launchdServicePathVal, hpath, hhome, jsOptStr, jsOptJoin, jsJoin, hcolon, List.append_assoc]
    rw [heq]
    refine splitSep_jsJoin (by simp) ?_
    intro p hpm
    rcases List.mem_append.mp hpm with h1 | h1
    · exact hp p h1
    · simp only [List.mem_cons] at h1
      rcases h1 with rfl | rfl | h1
      · exact hd
      · intro hc
        rcases List.mem_append.mp hc with hc | hc
        · exact hh hc
        · revert hc
          decide
      · simp at h1
  · have heq : initServicePathVal rt opts =
        jsJoin [':'] ((q :: qs) ++ [rt.execPath, hme ++ ("/.deno/bin").data]) := by
      rw [jsJoin_append (by simp) (by simp)]
      simp [initServicePathVal, hpath, henv, jsOptStr, jsOptJoin, jsJoin, hcolon, List.append_assoc]
    rw [heq]
    refine splitSep_jsJoin (by simp) ?_
    intro p hpm
    rcases List.mem_append.mp hpm with h1 | h1
    · exact hp p h1
    · simp only [List.mem_cons] at h1
      rcases h1 with rfl | rfl | h1
      · exact hd
      · intro hc
        rcases List.mem_append.mp hc with hc | hc
        · exact hm hc
        · revert hc
          decide
      · simp at h1

/-- C1, witness: on the concrete fixture, systemd's PATH components are
runtime dir, home bin, then the caller path, while launchd's are the
caller path first. -/
theorem claimC1_witness :
    splitSep ':' (systemdEnvPath rtFix optsFix) =
      [("PATH=/usr/bin/deno").data, ("/home/testuser/.deno/bin").data, ("/usr/local/bin").data]
    ∧ splitSep ':' (launchdServicePathVal rtFix optsFix) =
      [("/usr/local/bin").data, ("/usr/bin/deno").data, ("/home/testuser/.deno/bin").data] := by
  have hall := claimC1_amended rtFix optsFix (("/home/testuser").data) (("/home/hostuser").data)
    [("/usr/local/bin").data] rfl (by decide) rfl rfl (by decide) (by decide) (by decide)
    (by decide) (by decide) (by decide) (by decide)
  refine ⟨?_, ?_⟩
  · rw [hall.1]
    decide
  · rw [hall.2.2.2.1]
    decide

/-! ### Claim C4 -/

/-- C4: for systemd and launchd, `install` refuses with exit code 1, a
printed "already exists" diagnostic and no other effect whenever an
artifact exists at the user-scope or the system-scope path, regardless
of the requested scope or dry-run flag. -/
theorem claimC4_exists_refusal (host : Host) (config : InstallServiceOptions) (g : Bool) :
    ((host.fileExists (systemdPathUser config.home config.name) = true ∨
      host.fileExists (systemdPathSystem config.name) = true) →
      (systemdInstall host config g).1 = Outcome.exited 1 ∧
      (∃ m, (systemdInstall host config g).2 = [Effect.printErr m] ∧
        ("already exists").data <:+: m))
    ∧ ((host.fileExists (launchdPathUser config.home config.name) = true ∨
      host.fileExists (launchdPathSystem config.name) = true) →
      (launchdInstall host config g).1 = Outcome.exited 1 ∧
      (∃ m, (launchdInstall host config g).2 = [Effect.printErr m] ∧
        ("already exists").data <:+: m)) := by
  constructor
  · intro hex
    by_cases hu : host.fileExists (systemdPathUser config.home config.name) = true
    · have hinst : systemdInstall host config g =
          (Outcome.exited 1, [Effect.printErr ((("Service '").data ++ config.name ++
            (("' already exists in '").data ++ (systemdPathUser config.home config.name ++
              ("'. Exiting.").data))))]) := by
        simp [systemdInstall, hu, List.append_assoc]
      rw [hinst]
      refine ⟨rfl, ⟨(("Service '").data ++ config.name ++
        (("' already exists in '").data ++ (systemdPathUser config.home config.name ++
          ("'. Exiting.").data))), rfl, ?_⟩⟩
      have hae : ("already exists").data <:+: ("' already exists in '").data := by decide
      exact isInfixAppendR _ (isInfixAppendL _ hae)
    · have hs : host.fileExists (systemdPathSystem config.name) = true := by
        rcases hex with h1 | h1
        · exact absurd h1 hu
        · exact h1
      rw [Bool.not_eq_true] at hu
      have hinst : systemdInstall host config g =
          (Outcome.exited 1, [Effect.printErr ((("Service '").data ++ config.name ++
            (("' already exists in '").data ++ (systemdPathSystem config.name ++
              ("'. Exiting.").data))))]) := by
        simp [systemdInstall, hu, hs, List.append_assoc]
      rw [hinst]
      refine ⟨rfl, ⟨(("Service '").data ++ config.name ++
        (("' already exists in '").data ++ (systemdPathSystem config.name ++
          ("'. Exiting.").data))), rfl, ?_⟩⟩
      have hae : ("already exists").data <:+: ("' already exists in '").data := by decide
      exact isInfixAppendR _ (isInfixAppendL _ hae)
  · intro hex
    have hor : (host.fileExists (launchdPathUser config.home config.name) ||
        host.fileExists (launchdPathSystem config.name)) = true := by
      rcases hex with h1 | h1 <;> simp [h1]
    have hinst : launchdInstall host config g =
        (Outcome.exited 1, [Effect.printErr ((("Service '").data ++ config.name ++
          ("' already exists. Exiting.").data))]) := by
      simp [launchdInstall, hor, List.append_assoc]
    rw [hinst]
    refine ⟨rfl, ⟨(("Service '").data ++ config.name ++
      ("' already exists. Exiting.").data), rfl, ?_⟩⟩
    have hae : ("already exists").data <:+: ("' already exists. Exiting.").data := by decide
    exact isInfixAppendR _ hae

/-- A host on which every path exists (and every subprocess succeeds). -/
def hostAllExists : Host :=
  ⟨rtFix, fun _ => true, fun _ => ⟨true, []⟩, fun _ => true, fun _ => [], ("/tmp/tempfile").data⟩

/-- C4, witness: on a host where the fixture's user-scope unit file
already exists, both managers' installs exit with code 1. -/
theorem claimC4_witness :
    hostAllExists.fileExists (systemdPathUser optsFix.home optsFix.name) = true
    ∧ (systemdInstall hostAllExists optsFix false).1 = Outcome.exited 1
    ∧ (launchdInstall hostAllExists optsFix true).1 = Outcome.exited 1 := by
  refine ⟨rfl, ?_, ?_⟩
  · exact ((claimC4_exists_refusal hostAllExists optsFix false).1 (Or.inl rfl)).1
  · exact ((claimC4_exists_refusal hostAllExists optsFix true).2 (Or.inl rfl)).1

/-! ### Claim C10 -/

/-- C10: for systemd, launchd and upstart, when the artifact exists but
removing it fails, `uninstall` swallows the error: it returns normally
(no exit, no thrown error) and its only effect is a printed
"Failed to uninstall service" diagnostic. -/
theorem claimC10_uninstall_failure (host : Host) (config : UninstallServiceOptions) :
    ((host.fileExists (if config.system then systemdPathSystem config.name
        else systemdPathUser config.home config.name) = true) →
      (host.removeOk (if config.system then systemdPathSystem config.name
        else systemdPathUser config.home config.name) = false) →
      (systemdUninstall host config).1 = Outcome.normal ∧
      (∃ m, (systemdUninstall host config).2 = [Effect.printErr m] ∧
        ("Failed to uninstall service").data <:+: m))
    ∧ ((host.fileExists (if config.system then launchdPathSystem config.name
        else launchdPathUser config.home config.name) = true) →
      (host.removeOk (if config.system then launchdPathSystem config.name
        else launchdPathUser config.home config.name) = false) →
      (launchdUninstall host config).1 = Outcome.normal ∧
      (∃ m, (launchdUninstall host config).2 = [Effect.printErr m] ∧
        ("Failed to uninstall service").data <:+: m))
    ∧ ((host.fileExists (upstartFilePath config.name) = true) →
      (host.removeOk (upstartFilePath config.name) = false) →
      (upstartUninstall host config).1 = Outcome.normal ∧
      (∃ m, (upstartUninstall host config).2 = [Effect.printErr m] ∧
        ("Failed to uninstall service").data <:+: m)) := by
  have hf : ("Failed to uninstall service").data <:+:
      ("Failed to uninstall service: Could not remove '").data := by decide
  refine ⟨?_, ?_, ?_⟩
  · intro hex hrm
    have hinst : systemdUninstall host config =
        (Outcome.normal, [Effect.printErr ((("Failed to uninstall service: Could not remove '").data ++
          (if config.system then systemdPathSystem config.name
            else systemdPathUser config.home config.name) ++ ("'. Error: ").data ++
          host.removeErrMsg (if config.system then systemdPathSystem config.name
            else systemdPathUser config.home config.name)))]) := by
      simp [systemdUninstall, hex, hrm]
    rw [hinst]
    exact ⟨rfl, ⟨_, rfl, isInfixAppendL _ (isInfixAppendL _ (isInfixAppendL _ hf))⟩⟩
  · intro hex hrm
    have hinst : launchdUninstall host config =
        (Outcome.normal, [Effect.printErr ((("Failed to uninstall service: Could not remove '").data ++
          (if config.system then launchdPathSystem config.name
            else launchdPathUser config.home config.name) ++ ("'. Error: ").data ++
          host.removeErrMsg (if config.system then launchdPathSystem config.name
            else launchdPathUser config.home config.name)))]) := by
      simp [launchdUninstall, hex, hrm]
    rw [hinst]
    exact ⟨rfl, ⟨_, rfl, isInfixAppendL _ (isInfixAppendL _ (isInfixAppendL _ hf))⟩⟩
  · intro hex hrm
    have hinst : upstartUninstall host config =
        (Outcome.normal, [Effect.printErr ((("Failed to uninstall service: Could not remove '").data ++
          upstartFilePath config.name ++ ("'. Error: ").data ++
          host.removeErrMsg (upstartFilePath config.name)))]) := by
      simp [upstartUninstall, hex, hrm]
    rw [hinst]
    exact ⟨rfl, ⟨_, rfl, isInfixAppendL _ (isInfixAppendL _ (isInfixAppendL _ hf))⟩⟩

/-- A host on which every path exists but every removal fails. -/
def hostRemoveFails : Host :=
  ⟨rtFix, fun _ => true, fun _ => ⟨true, []⟩, fun _ => false,
   fun _ => ("EACCES").data, ("/tmp/tempfile").data⟩

/-- C10, witness: on a host where removal fails, all three uninstalls
return normally. -/
theorem claimC10_witness :
    (systemdUninstall hostRemoveFails ⟨false, ("svc").data, some (("/h").data)⟩).1 = Outcome.normal
    ∧ (launchdUninstall hostRemoveFails ⟨false, ("svc").data, some (("/h").data)⟩).1 = Outcome.normal
    ∧ (upstartUninstall hostRemoveFails ⟨false, ("svc").data, some (("/h").data)⟩).1 = Outcome.normal := by
  have h := claimC10_uninstall_failure hostRemoveFails ⟨false, ("svc").data, some (("/h").data)⟩
  exact ⟨(h.1 rfl rfl).1, (h.2.1 rfl rfl).1, (h.2.2 rfl rfl).1⟩

/-! ### Claim C5 -/

theorem isInfixStdoutOfMem {s : Str} {effs : List Effect}
    (h : Effect.printOut s ∈ effs) : s <:+: stdoutOf effs := by
  induction effs with
  | nil => simp at h
  | cons e es ih =>
    rcases List.mem_cons.mp h with rfl | hmem
    · have : stdoutOf (Effect.printOut s :: es) = s ++ stdoutOf es := by
        simp [stdoutOf]
      rw [this]
      exact isInfixAppendL _ List.infix_rfl
    · cases e with
      | printOut t =>
        have : stdoutOf (Effect.printOut t :: es) = t ++ stdoutOf es := by
          simp [stdoutOf]
        rw [this]
        exact isInfixAppendR _ (ih hmem)
      | printErr t => simpa [stdoutOf] using ih hmem
      | fileWrite p c => simpa [stdoutOf] using ih hmem
      | fileRemove p => simpa [stdoutOf] using ih hmem
      | mkdirp p => simpa [stdoutOf] using ih hmem
      | spawned c a => simpa [stdoutOf] using ih hmem

/-- C5: for all five managers, a dry-run install (`onlyGenerate=true`)
produces only print effects — no file writes, removals, directory
creations or subprocess spawns — and, when no existing artifact aborts
it, returns normally with the complete rendered configuration and the
would-be target path in its printed output. -/
theorem claimC5_dry_run (host : Host) (opts : InstallServiceOptions) :
    ((systemdInstall host opts true).2.all (fun e => !(Effect.isMutation e)) = true)
    ∧ ((launchdInstall host opts true).2.all (fun e => !(Effect.isMutation e)) = true)
    ∧ ((initInstall host opts true).2.all (fun e => !(Effect.isMutation e)) = true)
    ∧ ((upstartInstall host opts true).2.all (fun e => !(Effect.isMutation e)) = true)
    ∧ ((windowsInstall host opts true).2.all (fun e => !(Effect.isMutation e)) = true)
    ∧ (host.fileExists (systemdPathUser opts.home opts.name) = false →
       host.fileExists (systemdPathSystem opts.name) = false →
       (systemdInstall host opts true).1 = Outcome.normal
       ∧ systemdGenerateConfig host.rt opts <:+: stdoutOf (systemdInstall host opts true).2
       ∧ (if opts.system then systemdPathSystem opts.name else systemdPathUser opts.home opts.name)
           <:+: stdoutOf (systemdInstall host opts true).2)
    ∧ (host.fileExists (launchdPathUser opts.home opts.name) = false →
       host.fileExists (launchdPathSystem opts.name) = false →
       (launchdInstall host opts true).1 = Outcome.normal
       ∧ launchdGenerateConfig host.rt opts <:+: stdoutOf (launchdInstall host opts true).2
       ∧ (if opts.system then launchdPathSystem opts.name else launchdPathUser opts.home opts.name)
           <:+: stdoutOf (launchdInstall host opts true).2)
    ∧ (host.fileExists (initScriptPath opts.name) = false →
       (initInstall host opts true).1 = Outcome.normal
       ∧ initGenerateConfig host.rt opts <:+: stdoutOf (initInstall host opts true).2
       ∧ initScriptPath opts.name <:+: stdoutOf (initInstall host opts true).2)
    ∧ (host.fileExists (upstartFilePath opts.name) = false →
       (upstartInstall host opts true).1 = Outcome.normal
       ∧ upstartGenerateConfig host.rt opts <:+: stdoutOf (upstartInstall host opts true).2
       ∧ upstartFilePath opts.name <:+: stdoutOf (upstartInstall host opts true).2)
    ∧ (host.fileExists (windowsBatchPath opts.home opts.name) = false →
       (windowsInstall host opts true).1 = Outcome.normal
       ∧ windowsGenerateConfig host.rt opts <:+: stdoutOf (windowsInstall host opts true).2
       ∧ windowsBatchPath opts.home opts.name <:+: stdoutOf (windowsInstall host opts true).2) := by
  refine ⟨?_, ?_, ?_, ?_, ?_, ?_, ?_, ?_, ?_, ?_⟩
  · by_cases hu : host.fileExists (systemdPathUser opts.home opts.name) = true
    · simp [systemdInstall, hu, Effect.isMutation]
    · rw [Bool.not_eq_true] at hu
      by_cases hs : host.fileExists (systemdPathSystem opts.name) = true
      · simp [systemdInstall, hu, hs, Effect.isMutation]
      · rw [Bool.not_eq_true] at hs
        simp [systemdInstall, systemdInstallRest, hu, hs, Effect.isMutation]
  · by_cases hu : host.fileExists (launchdPathUser opts.home opts.name) = true
    · simp [launchdInstall, hu, Effect.isMutation]
    · rw [Bool.not_eq_true] at hu
      by_cases hs : host.fileExists (launchdPathSystem opts.name) = true
      · simp [launchdInstall, hu, hs, Effect.isMutation]
      · rw [Bool.not_eq_true] at hs
        simp [launchdInstall, hu, hs, Effect.isMutation]
  · by_cases hu : host.fileExists (initScriptPath opts.name) = true
    · simp [initInstall, hu, Effect.isMutation]
    · rw [Bool.not_eq_true] at hu
      simp [initInstall, hu, Effect.isMutation]
  · by_cases hu : host.fileExists (upstartFilePath opts.name) = true
    · simp [upstartInstall, hu, Effect.isMutation]
    · rw [Bool.not_eq_true] at hu
      simp [upstartInstall, hu, Effect.isMutation]
  · by_cases hu : host.fileExists (windowsBatchPath opts.home opts.name) = true
    · simp [windowsInstall, hu, Effect.isMutation]
    · rw [Bool.not_eq_true] at hu
      simp [windowsInstall, hu, Effect.isMutation]
  · intro hu hs
    have hinst : systemdInstall host opts true = (Outcome.normal,
        [Effect.printOut (("\nThis is a dry-run, nothing will be written to disk or installed.").data),
         Effect.printOut (("\nPath: ").data ++ (" ").data ++
           (if opts.system then systemdPathSystem opts.name else systemdPathUser opts.home opts.name)),
         Effect.printOut (("\nConfiguration:\n").data),
         Effect.printOut (systemdGenerateConfig host.rt opts)]) := by
      simp [systemdInstall, systemdInstallRest, hu, hs]
    rw [hinst]
    refine ⟨rfl, isInfixStdoutOfMem (by simp), ?_⟩
    exact (isInfixAppendR (("\nPath: ").data ++ (" ").data) List.infix_rfl).trans
      (isInfixStdoutOfMem (by simp))
  · intro hu hs
    have hinst : launchdInstall host opts true = (Outcome.normal,
        [Effect.printOut (("\nThis is a dry-run, nothing will be written to disk or installed.").data),
         Effect.printOut (("\nPath: ").data ++ (" ").data ++
           (if opts.system then launchdPathSystem opts.name else launchdPathUser opts.home opts.name)),
         Effect.printOut (("\nConfiguration:\n").data),
         Effect.printOut (launchdGenerateConfig host.rt opts)]) := by
      simp [launchdInstall, hu, hs]
    rw [hinst]
    refine ⟨rfl, isInfixStdoutOfMem (by simp), ?_⟩
    exact (isInfixAppendR (("\nPath: ").data ++ (" ").data) List.infix_rfl).trans
      (isInfixStdoutOfMem (by simp))
  · intro hu
    have hinst : initInstall host opts true = (Outcome.normal,
        [Effect.printOut (("\nThis is a dry-run, nothing will be written to disk or installed.").data),
         Effect.printOut (("\nPath: ").data ++ (" ").data ++ initScriptPath opts.name),
         Effect.printOut (("\nConfiguration:\n").data),
         Effect.printOut (initGenerateConfig host.rt opts)]) := by
      simp [initInstall, hu]
    rw [hinst]
    refine ⟨rfl, isInfixStdoutOfMem (by simp), ?_⟩
    exact (isInfixAppendR (("\nPath: ").data ++ (" ").data) List.infix_rfl).trans
      (isInfixStdoutOfMem (by simp))
  · intro hu
    have hinst : upstartInstall host opts true = (Outcome.normal,
        [Effect.printOut (("\nThis is a dry-run, nothing will be written to disk or installed.").data),
         Effect.printOut (("\nPath: ").data ++ (" ").data ++ upstartFilePath opts.name),
         Effect.printOut (("\nConfiguration:\n").data),
         Effect.printOut (upstartGenerateConfig host.rt opts)]) := by
      simp [upstartInstall, hu]
    rw [hinst]
    refine ⟨rfl, isInfixStdoutOfMem (by simp), ?_⟩
    exact (isInfixAppendR (("\nPath: ").data ++ (" ").data) List.infix_rfl).trans
      (isInfixStdoutOfMem (by simp))
  · intro hu
    have hinst : windowsInstall host opts true = (Outcome.normal,
        [Effect.printOut (("\nThis is a dry-run, nothing will be written to disk or installed.").data),
         Effect.printOut (("\nPath: ").data ++ (" ").data ++ windowsBatchPath opts.home opts.name),
         Effect.printOut (("\nConfiguration:\n").data),
         Effect.printOut (windowsGenerateConfig host.rt opts)]) := by
      simp [windowsInstall, hu]
    rw [hinst]
    refine ⟨rfl, isInfixStdoutOfMem (by simp), ?_⟩
    exact (isInfixAppendR (("\nPath: ").data ++ (" ").data) List.infix_rfl).trans
      (isInfixStdoutOfMem (by simp))

/-- A host on which no path exists. -/
def hostEmpty : Host :=
  ⟨rtFix, fun _ => false, fun _ => ⟨true, []⟩, fun _ => true, fun _ => [], ("/tmp/tempfile").data⟩

/-- C5, witness: on an empty host with the fixture options, the systemd
and windows dry-runs return normally and print only. -/
theorem claimC5_witness :
    (systemdInstall hostEmpty optsFix true).2.all (fun e => !(Effect.isMutation e)) = true
    ∧ (systemdInstall hostEmpty optsFix true).1 = Outcome.normal
    ∧ (windowsInstall hostEmpty optsFix true).1 = Outcome.normal := by
  have h := claimC5_dry_run hostEmpty optsFix
  exact ⟨h.1, (h.2.2.2.2.2.1 rfl rfl).1, (h.2.2.2.2.2.2.2.2.2 rfl).1⟩

/-! ### Claim C6 -/

/-- C6: in a systemd user-scope non-dry-run install (linger succeeded),
daemon-reload, enable and start run strictly in sequence, each gated on
the previous step's success; the first failure triggers rollback
(removal of the written unit plus a daemon-reload) and then throws an
error whose message carries the failing command's captured stderr; the
outcome is that thrown activation error regardless of what happens
inside rollback, whose own failures only produce an error print. -/
theorem claimC6_systemd_activation (host : Host) (config : InstallServiceOptions) (u : Str)
    (hnu : host.fileExists (systemdPathUser config.home config.name) = false)
    (hns : host.fileExists (systemdPathSystem config.name) = false)
    (hsys : config.system = false)
    (huser : config.user = some u) (hune : u.isEmpty = false)
    (hlinger : (host.spawnRes 0).success = true) :
    ((host.spawnRes 1).success = false →
      systemdInstall host config false =
        (Outcome.threw ((("Failed to reload daemon, rolled back any changes. Error: \n").data) ++
          (host.spawnRes 1).stderrText),
         [Effect.spawned (("loginctl").data) [("enable-linger").data, u],
          Effect.fileWrite (systemdPathUser config.home config.name)
            (systemdGenerateConfig host.rt config),
          Effect.spawned (("systemctl").data) [("--user").data, ("daemon-reload").data]] ++
          systemdRollback host 2 (systemdPathUser config.home config.name) false)
      ∧ (host.spawnRes 1).stderrText <:+:
          (("Failed to reload daemon, rolled back any changes. Error: \n").data ++
            (host.spawnRes 1).stderrText))
    ∧ ((host.spawnRes 1).success = true → (host.spawnRes 2).success = false →
      systemdInstall host config false =
        (Outcome.threw ((("Failed to enable service, rolled back any changes. Error: \n").data) ++
          (host.spawnRes 2).stderrText),
         [Effect.spawned (("loginctl").data) [("enable-linger").data, u],
          Effect.fileWrite (systemdPathUser config.home config.name)
            (systemdGenerateConfig host.rt config),
          Effect.spawned (("systemctl").data) [("--user").data, ("daemon-reload").data],
          Effect.spawned (("systemctl").data) [("--user").data, ("enable").data, config.name]] ++
          systemdRollback host 3 (systemdPathUser config.home config.name) false)
      ∧ (host.spawnRes 2).stderrText <:+:
          (("Failed to enable service, rolled back any changes. Error: \n").data ++
            (host.spawnRes 2).stderrText))
    ∧ ((host.spawnRes 1).success = true → (host.spawnRes 2).success = true →
      (host.spawnRes 3).success = false →
      systemdInstall host config false =
        (Outcome.threw ((("Failed to start service, rolled back any changes. Error: \n").data) ++
          (host.spawnRes 3).stderrText),
         [Effect.spawned (("loginctl").data) [("enable-linger").data, u],
          Effect.fileWrite (systemdPathUser config.home config.name)
            (systemdGenerateConfig host.rt config),
          Effect.spawned (("systemctl").data) [("--user").data, ("daemon-reload").data],
          Effect.spawned (("systemctl").data) [("--user").data, ("enable").data, config.name],
          Effect.spawned (("systemctl").data) [("--user").data, ("start").data, config.name]] ++
          systemdRollback host 4 (systemdPathUser config.home config.name) false)
      ∧ (host.spawnRes 3).stderrText <:+:
          (("Failed to start service, rolled back any changes. Error: \n").data ++
            (host.spawnRes 3).stderrText))
    ∧ ((host.spawnRes 1).success = true → (host.spawnRes 2).success = true →
      (host.spawnRes 3).success = true →
      systemdInstall host config false =
        (Outcome.normal,
         [Effect.spawned (("loginctl").data) [("enable-linger").data, u],
          Effect.fileWrite (systemdPathUser config.home config.name)
            (systemdGenerateConfig host.rt config),
          Effect.spawned (("systemctl").data) [("--user").data, ("daemon-reload").data],
          Effect.spawned (("systemctl").data) [("--user").data, ("enable").data, config.name],
          Effect.spawned (("systemctl").data) [("--user").data, ("start").data, config.name],
          Effect.printOut ((("Service '").data ++ config.name ++ ("' installed at '").data ++
            systemdPathUser config.home config.name ++ ("' and enabled.").data))]))
    ∧ (∀ k p b, host.removeOk p = false →
        systemdRollback host k p b =
          [Effect.printErr ((("Failed to rollback changes: Could not remove '").data ++ p ++
            ("'. Error: ").data ++ host.removeErrMsg p))])
    ∧ (∀ k p b, host.removeOk p = true → (host.spawnRes k).success = false →
        systemdRollback host k p b =
          [Effect.fileRemove p,
           Effect.spawned (("systemctl").data)
             [if b then [] else ("--user").data, ("daemon-reload").data],
           Effect.printErr ((("Failed to rollback changes: Could not remove '").data ++ p ++
             ("'. Error: ").data ++ ("Failed to reload daemon while rolling back.").data))]) := by
  refine ⟨?_, ?_, ?_, ?_, ?_, ?_⟩
  · intro h1
    refine ⟨?_, isInfixAppendR _ List.infix_rfl⟩
    simp [systemdInstall, systemdInstallRest, hnu, hns, hsys, huser, jsFalsy, jsOptStr, hune, hlinger, h1]
  · intro h1 h2
    refine ⟨?_, isInfixAppendR _ List.infix_rfl⟩
    simp [systemdInstall, systemdInstallRest, hnu, hns, hsys, huser, jsFalsy, jsOptStr, hune, hlinger, h1, h2]
  · intro h1 h2 h3
    refine ⟨?_, isInfixAppendR _ List.infix_rfl⟩
    simp [systemdInstall, systemdInstallRest, hnu, hns, hsys, huser, jsFalsy, jsOptStr, hune, hlinger, h1, h2, h3]
  · intro h1 h2 h3
    simp [systemdInstall, systemdInstallRest, hnu, hns, hsys, huser, jsFalsy, jsOptStr, hune, hlinger, h1, h2, h3]
  · intro k p b hrm
    simp [systemdRollback, hrm]
  · intro k p b hrm hk
    simp [systemdRollback, hrm, hk]

/-- A host where the third spawned command (systemctl enable, after
linger and daemon-reload) fails with stderr "boom". -/
def hostEnableFails : Host :=
  ⟨rtFix, fun _ => false,
   fun k => if k = 2 then ⟨false, ("boom").data⟩ else ⟨true, []⟩,
   fun _ => true, fun _ => [], ("/tmp/tempfile").data⟩

/-- C6, witness: with the fixture options on that host, install throws
the enable-failure activation error carrying the captured stderr. -/
theorem claimC6_witness :
    (hostEnableFails.spawnRes 0).success = true
    ∧ (hostEnableFails.spawnRes 1).success = true
    ∧ (hostEnableFails.spawnRes 2).success = false
    ∧ (systemdInstall hostEnableFails optsFix false).1 =
        Outcome.threw ((("Failed to enable service, rolled back any changes. Error: \n").data) ++
          ("boom").data) := by
  have h := (claimC6_systemd_activation hostEnableFails optsFix (("testuser").data)
    rfl rfl rfl rfl (by decide) (by decide)).2.1 (by decide) (by decide)
  refine ⟨by decide, by decide, by decide, ?_⟩
  rw [h.1]
  decide

/-! ### Claim C8 -/

/-- The nonempty two-sided splits of the five-character string `User=`. -/
theorem userSplits {s t : Str} (hp : (("User=").data : Str) = s ++ t)
    (hsn : s ≠ []) (htn : t ≠ []) :
    (s = ("U").data ∧ t = ("ser=").data) ∨ (s = ("Us").data ∧ t = ("er=").data) ∨
    (s = ("Use").data ∧ t = ("r=").data) ∨ (s = ("User").data ∧ t = ("=").data) := by
  have hlen : s.length + t.length = 5 := by
    have hq := congrArg List.length hp
    simp at hq
    omega
  have hs5 : s = (("User=").data : Str).take s.length := by
    rw [hp, List.take_left]
  have ht5 : t = (("User=").data : Str).drop s.length := by
    rw [hp, List.drop_left]
  have h1 : 0 < s.length := List.length_pos.mpr hsn
  have h2 : s.length ≤ 4 := by
    have h3 : 0 < t.length := List.length_pos.mpr htn
    omega
  have hc : s.length = 1 ∨ s.length = 2 ∨ s.length = 3 ∨ s.length = 4 := by omega
  rcases hc with h | h | h | h <;> rw [h] at hs5 ht5 <;> subst hs5 <;> subst ht5 <;> simp

/-- Gluing rule: `User=` occurs in `x ++ y` only inside `x`, inside `y`,
or straddling with one of its four nonempty splits. -/
theorem userNotInAppend {x y : Str}
    (h1 : ¬ ((("User=").data : Str) <:+: x))
    (h2 : ¬ ((("User=").data : Str) <:+: y))
    (hs : ∀ s t, (("User=").data : Str) = s ++ t → s ≠ [] → t ≠ [] →
      ¬ (s <:+ x) ∨ ¬ (t <+: y)) :
    ¬ ((("User=").data : Str) <:+: x ++ y) := by
  intro h
  rcases isInfixSplit h with hca | hcb | ⟨s, t, hp, hsn, htn, hsx, hty⟩
  · exact h1 hca
  · exact h2 hcb
  · rcases hs s t hp hsn htn with hns | hnt
    · exact hns hsx
    · exact hnt hty

theorem notPrefixConsHead {t rest : Str} {a b : Char} (hne : ¬ (a = b)) :
    ¬ ((a :: t) <+: (b :: rest)) :=
  fun hpre => hne (List.cons_prefix_cons.mp hpre).1

/-- `s <:+ y` follows from `s <:+ x ++ y` when `s` is no longer than `y`. -/
theorem suffixOfAppendShort {s x y : Str} (h : s <:+ x ++ y) (hl : s.length ≤ y.length) :
    s <:+ y := by
  have h1 : s.reverse <+: (x ++ y).reverse := List.reverse_prefix.mpr h
  rw [List.reverse_append] at h1
  have h2 : s.reverse <+: y.reverse :=
    List.prefix_of_prefix_length_le h1 (List.prefix_append _ _) (by simpa using hl)
  exact List.reverse_prefix.mp h2

/-- The systemd template after substituting the fixture name. -/
def c8S1 : Str :=
  ("[Unit]\nDescription=test-service (Deno Service)\n\n[Service]\nExecStart=/bin/sh -c \"\x7b\x7bcommand\x7d\x7d\"\nRestart=always\nRestartSec=30\nEnvironment=\x7b\x7bpath\x7d\x7d\nWorkingDirectory=\x7b\x7bworkingDirectory\x7d\x7d\n\x7b\x7bextraServiceContent\x7d\x7d\n\n[Install]\nWantedBy=multi-user.target\n").data

/-- The systemd template after substituting the fixture name and command. -/
def c8S2 : Str :=
  ("[Unit]\nDescription=test-service (Deno Service)\n\n[Service]\nExecStart=/bin/sh -c \"deno run --allow-net server.ts\"\nRestart=always\nRestartSec=30\nEnvironment=\x7b\x7bpath\x7d\x7d\nWorkingDirectory=\x7b\x7bworkingDirectory\x7d\x7d\n\x7b\x7bextraServiceContent\x7d\x7d\n\n[Install]\nWantedBy=multi-user.target\n").data

/-- The rendered fixture unit up to and including `Environment=`. -/
def c8E1 : Str :=
  ("[Unit]\nDescription=test-service (Deno Service)\n\n[Service]\nExecStart=/bin/sh -c \"deno run --allow-net server.ts\"\nRestart=always\nRestartSec=30\nEnvironment=").data

/-- The template tail after the `path` placeholder. -/
def c8R2 : Str :=
  ("\nWorkingDirectory=\x7b\x7bworkingDirectory\x7d\x7d\n\x7b\x7bextraServiceContent\x7d\x7d\n\n[Install]\nWantedBy=multi-user.target\n").data

/-- The `WorkingDirectory=` line head. -/
def c8W : Str := ("\nWorkingDirectory=").data

/-- The template tail after the `workingDirectory` placeholder. -/
def c8R2post : Str :=
  ("\n\x7b\x7bextraServiceContent\x7d\x7d\n\n[Install]\nWantedBy=multi-user.target\n").data

/-- The newline before the (empty) extra-service-content slot. -/
def c8N1 : Str := ("\n").data

/-- The rendered fixture unit tail from the `[Install]` section. -/
def c8N2 : Str := ("\n\n[Install]\nWantedBy=multi-user.target\n").data

/-- C8: on the test-fixture input, systemd's `generateConfig` — for any
runtime executable path `d` and working directory `w` that are free of
braces and of the text `User=` — renders a unit containing the expected
`Description=`, `ExecStart=`, and `Environment=PATH=` material, both
`/home/testuser/.deno/bin` and `/usr/local/bin` in the PATH, and no
`User=` anywhere. -/
theorem claimC8_fixture (d w : Str) (he : Option Str)
    (hd : '{' ∉ d) (hw : '{' ∉ w)
    (hdU : ¬ ((("User=").data : Str) <:+: d))
    (hwU : ¬ ((("User=").data : Str) <:+: w)) :
    ("Description=test-service (Deno Service)").data <:+: systemdGenerateConfig ⟨d, w, he⟩ optsFix
    ∧ ("ExecStart=/bin/sh -c \"deno run --allow-net server.ts\"").data <:+:
        systemdGenerateConfig ⟨d, w, he⟩ optsFix
    ∧ ("Environment=PATH=").data <:+: systemdGenerateConfig ⟨d, w, he⟩ optsFix
    ∧ ("/home/testuser/.deno/bin").data <:+: systemdGenerateConfig ⟨d, w, he⟩ optsFix
    ∧ ("/usr/local/bin").data <:+: systemdGenerateConfig ⟨d, w, he⟩ optsFix
    ∧ ¬ ((("User=").data : Str) <:+: systemdGenerateConfig ⟨d, w, he⟩ optsFix) := by
  have h1 : replaceFirst systemdServiceFileTemplate phName (("test-service").data) = c8S1 := by
    decide
  have h2 : replaceFirst c8S1 phCommand (("deno run --allow-net server.ts").data) = c8S2 := by
    decide
  have henv : systemdEnvPath ⟨d, w, he⟩ optsFix =
      ("PATH=").data ++ d ++ (":").data ++ ("/home/testuser").data ++ ("/.deno/bin").data ++
        (":").data ++ ("/usr/local/bin").data := rfl
  have hunfold : systemdGenerateConfig ⟨d, w, he⟩ optsFix =
      replaceFirst (replaceFirst (replaceFirst (replaceFirst
        (replaceFirst systemdServiceFileTemplate phName (("test-service").data))
        phCommand (("deno run --allow-net server.ts").data))
        phPath (systemdEnvPath ⟨d, w, he⟩ optsFix))
        phWorkingDirectory w)
        phExtraServiceContent [] := rfl
  have hph : phPath = '{' :: (("\x7bpath\x7d\x7d").data) := by decide
  have hphW : phWorkingDirectory = '{' :: (("\x7bworkingDirectory\x7d\x7d").data) := by decide
  have hphE : phExtraServiceContent = '{' :: (("\x7bextraServiceContent\x7d\x7d").data) := by decide
  have hsplitP : c8S2 = c8E1 ++ (phPath ++ c8R2) := by decide
  have e3 : replaceFirst c8S2 phPath (systemdEnvPath ⟨d, w, he⟩ optsFix) =
      c8E1 ++ (systemdEnvPath ⟨d, w, he⟩ optsFix ++ c8R2) := by
    rw [hsplitP, hph, replaceFirst_append_left (by decide), replaceFirst_exact (by simp)]
  have hXnb : '{' ∉ c8E1 ++ (systemdEnvPath ⟨d, w, he⟩ optsFix ++ c8W) := by
    rw [henv]
    intro hc
    rcases List.mem_append.mp hc with hc | hc
    · revert hc
      decide
    · rcases List.mem_append.mp hc with hc | hc
      · rcases List.mem_append.mp hc with hc | hc
        · rcases List.mem_append.mp hc with hc | hc
          · rcases List.mem_append.mp hc with hc | hc
            · rcases List.mem_append.mp hc with hc | hc
              · rcases List.mem_append.mp hc with hc | hc
                · rcases List.mem_append.mp hc with hc | hc
                  · revert hc
                    decide
                  · exact hd hc
                · revert hc
                  decide
              · revert hc
                decide
            · revert hc
              decide
          · revert hc
            decide
        · revert hc
          decide
      · revert hc
        decide
  have hsplitW : c8R2 = c8W ++ (phWorkingDirectory ++ c8R2post) := by decide
  have e4 : replaceFirst (c8E1 ++ (systemdEnvPath ⟨d, w, he⟩ optsFix ++ c8R2))
      phWorkingDirectory w =
      (c8E1 ++ (systemdEnvPath ⟨d, w, he⟩ optsFix ++ c8W)) ++ (w ++ c8R2post) := by
    have hre : c8E1 ++ (systemdEnvPath ⟨d, w, he⟩ optsFix ++ c8R2) =
        (c8E1 ++ (systemdEnvPath ⟨d, w, he⟩ optsFix ++ c8W)) ++ (phWorkingDirectory ++ c8R2post) := by
      rw [hsplitW]
      simp [List.append_assoc]
    rw [hre, hphW, replaceFirst_append_left hXnb, replaceFirst_exact (by simp)]
  have hX2nb : '{' ∉ (c8E1 ++ (systemdEnvPath ⟨d, w, he⟩ optsFix ++ c8W)) ++ (w ++ c8N1) := by
    intro hc
    rcases List.mem_append.mp hc with hc | hc
    · exact hXnb hc
    · rcases List.mem_append.mp hc with hc | hc
      · exact hw hc
      · revert hc
        decide
  have hsplitE : c8R2post = c8N1 ++ (phExtraServiceContent ++ c8N2) := by decide
  have e5 : replaceFirst ((c8E1 ++ (systemdEnvPath ⟨d, w, he⟩ optsFix ++ c8W)) ++ (w ++ c8R2post))
      phExtraServiceContent [] =
      ((c8E1 ++ (systemdEnvPath ⟨d, w, he⟩ optsFix ++ c8W)) ++ (w ++ c8N1)) ++ c8N2 := by
    have hre : (c8E1 ++ (systemdEnvPath ⟨d, w, he⟩ optsFix ++ c8W)) ++ (w ++ c8R2post) =
        ((c8E1 ++ (systemdEnvPath ⟨d, w, he⟩ optsFix ++ c8W)) ++ (w ++ c8N1)) ++
          (phExtraServiceContent ++ c8N2) := by
      rw [hsplitE]
      simp [List.append_assoc]
    rw [hre, hphE, replaceFirst_append_left hX2nb, replaceFirst_exact (by simp)]
    simp
  have hout : systemdGenerateConfig ⟨d, w, he⟩ optsFix =
      ((c8E1 ++ (systemdEnvPath ⟨d, w, he⟩ optsFix ++ c8W)) ++ (w ++ c8N1)) ++ c8N2 := by
    rw [hunfold, h1, h2, e3, e4, e5]
  refine ⟨?_, ?_, ?_, ?_, ?_, ?_⟩
  · rw [hout]
    exact isInfixAppendL _ (isInfixAppendL _ (isInfixAppendL _ (by decide)))
  · rw [hout]
    exact isInfixAppendL _ (isInfixAppendL _ (isInfixAppendL _ (by decide)))
  · rw [hout, henv]
    refine isInfixAppendL _ (isInfixAppendL _ ?_)
    refine ⟨("[Unit]\nDescription=test-service (Deno Service)\n\n[Service]\nExecStart=/bin/sh -c \"deno run --allow-net server.ts\"\nRestart=always\nRestartSec=30\n").data,
      d ++ (":").data ++ ("/home/testuser").data ++ ("/.deno/bin").data ++ (":").data ++
        ("/usr/local/bin").data ++ c8W, ?_⟩
    have hm : (("[Unit]\nDescription=test-service (Deno Service)\n\n[Service]\nExecStart=/bin/sh -c \"deno run --allow-net server.ts\"\nRestart=always\nRestartSec=30\n").data : Str) ++
        ("Environment=PATH=").data = c8E1 ++ ("PATH=").data := by decide
    calc (("[Unit]\nDescription=test-service (Deno Service)\n\n[Service]\nExecStart=/bin/sh -c \"deno run --allow-net server.ts\"\nRestart=always\nRestartSec=30\n").data : Str) ++
          ("Environment=PATH=").data ++
          (d ++ (":").data ++ ("/home/testuser").data ++ ("/.deno/bin").data ++ (":").data ++
            ("/usr/local/bin").data ++ c8W)
        = (c8E1 ++ ("PATH=").data) ++
          (d ++ (":").data ++ ("/home/testuser").data ++ ("/.deno/bin").data ++ (":").data ++
            ("/usr/local/bin").data ++ c8W) := by rw [hm]
      _ = c8E1 ++ (("PATH=").data ++ d ++ (":").data ++ ("/home/testuser").data ++
            ("/.deno/bin").data ++ (":").data ++ ("/usr/local/bin").data ++ c8W) := by
          simp [List.append_assoc]
  · rw [hout, henv]
    refine isInfixAppendL _ (isInfixAppendL _ (isInfixAppendR _ (isInfixAppendL _ ?_)))
    refine ⟨("PATH=").data ++ d ++ (":").data, (":").data ++ ("/usr/local/bin").data, ?_⟩
    have hm : (("/home/testuser").data : Str) ++ ("/.deno/bin").data =
        ("/home/testuser/.deno/bin").data := by decide
    rw [← hm]
    simp [List.append_assoc]
  · rw [hout, henv]
    refine isInfixAppendL _ (isInfixAppendL _ (isInfixAppendR _ (isInfixAppendL _ ?_)))
    exact ⟨("PATH=").data ++ d ++ (":").data ++ ("/home/testuser").data ++ ("/.deno/bin").data ++
      (":").data, [], by rw [List.append_nil]⟩
  · rw [hout, henv]
    have n1 : ¬ ((("User=").data : Str) <:+: ("PATH=").data ++ d) := by
      refine userNotInAppend (by decide) hdU ?_
      intro s t hp hsn htn
      rcases userSplits hp hsn htn with ⟨rfl, rfl⟩ | ⟨rfl, rfl⟩ | ⟨rfl, rfl⟩ | ⟨rfl, rfl⟩ <;>
        exact Or.inl (by decide)
    have n2 : ¬ ((("User=").data : Str) <:+: ("PATH=").data ++ d ++ (":").data) := by
      refine userNotInAppend n1 (by decide) ?_
      intro s t hp hsn htn
      rcases userSplits hp hsn htn with ⟨rfl, rfl⟩ | ⟨rfl, rfl⟩ | ⟨rfl, rfl⟩ | ⟨rfl, rfl⟩ <;>
        exact Or.inr (notPrefixConsHead (by decide))
    have n3 : ¬ ((("User=").data : Str) <:+:
        ("PATH=").data ++ d ++ (":").data ++ ("/home/testuser").data) := by
      refine userNotInAppend n2 (by decide) ?_
      intro s t hp hsn htn
      rcases userSplits hp hsn htn with ⟨rfl, rfl⟩ | ⟨rfl, rfl⟩ | ⟨rfl, rfl⟩ | ⟨rfl, rfl⟩ <;>
        exact Or.inr (notPrefixConsHead (by decide))
    have n4 : ¬ ((("User=").data : Str) <:+:
        ("PATH=").data ++ d ++ (":").data ++ ("/home/testuser").data ++ ("/.deno/bin").data) := by
      refine userNotInAppend n3 (by decide) ?_
      intro s t hp hsn htn
      rcases userSplits hp hsn htn with ⟨rfl, rfl⟩ | ⟨rfl, rfl⟩ | ⟨rfl, rfl⟩ | ⟨rfl, rfl⟩ <;>
        exact Or.inr (notPrefixConsHead (by decide))
    have n5 : ¬ ((("User=").data : Str) <:+:
        ("PATH=").data ++ d ++ (":").data ++ ("/home/testuser").data ++ ("/.deno/bin").data ++
          (":").data) := by
      refine userNotInAppend n4 (by decide) ?_
      intro s t hp hsn htn
      rcases userSplits hp hsn htn with ⟨rfl, rfl⟩ | ⟨rfl, rfl⟩ | ⟨rfl, rfl⟩ | ⟨rfl, rfl⟩ <;>
        exact Or.inr (notPrefixConsHead (by decide))
    have n6 : ¬ ((("User=").data : Str) <:+:
        ("PATH=").data ++ d ++ (":").data ++ ("/home/testuser").data ++ ("/.deno/bin").data ++
          (":").data ++ ("/usr/local/bin").data) := by
      refine userNotInAppend n5 (by decide) ?_
      intro s t hp hsn htn
      rcases userSplits hp hsn htn with ⟨rfl, rfl⟩ | ⟨rfl, rfl⟩ | ⟨rfl, rfl⟩ | ⟨rfl, rfl⟩ <;>
        exact Or.inr (notPrefixConsHead (by decide))
    have n7 : ¬ ((("User=").data : Str) <:+:
        (("PATH=").data ++ d ++ (":").data ++ ("/home/testuser").data ++ ("/.deno/bin").data ++
          (":").data ++ ("/usr/local/bin").data) ++ c8W) := by
      refine userNotInAppend n6 (by decide) ?_
      intro s t hp hsn htn
      rcases userSplits hp hsn htn with ⟨rfl, rfl⟩ | ⟨rfl, rfl⟩ | ⟨rfl, rfl⟩ | ⟨rfl, rfl⟩ <;>
        exact Or.inr (notPrefixConsHead (by decide))
    have n8 : ¬ ((("User=").data : Str) <:+:
        c8E1 ++ ((("PATH=").data ++ d ++ (":").data ++ ("/home/testuser").data ++
          ("/.deno/bin").data ++ (":").data ++ ("/usr/local/bin").data) ++ c8W)) := by
      refine userNotInAppend (by decide) n7 ?_
      intro s t hp hsn htn
      rcases userSplits hp hsn htn with ⟨rfl, rfl⟩ | ⟨rfl, rfl⟩ | ⟨rfl, rfl⟩ | ⟨rfl, rfl⟩ <;>
        exact Or.inr (notPrefixConsHead (by decide))
    have n9 : ¬ ((("User=").data : Str) <:+: w ++ c8N1) := by
      refine userNotInAppend hwU (by decide) ?_
      intro s t hp hsn htn
      rcases userSplits hp hsn htn with ⟨rfl, rfl⟩ | ⟨rfl, rfl⟩ | ⟨rfl, rfl⟩ | ⟨rfl, rfl⟩ <;>
        exact Or.inr (notPrefixConsHead (by decide))
    have n10 : ¬ ((("User=").data : Str) <:+:
        (c8E1 ++ ((("PATH=").data ++ d ++ (":").data ++ ("/home/testuser").data ++
          ("/.deno/bin").data ++ (":").data ++ ("/usr/local/bin").data) ++ c8W)) ++
          (w ++ c8N1)) := by
      refine userNotInAppend n8 n9 ?_
      intro s t hp hsn htn
      have hassoc : c8E1 ++ ((("PATH=").data ++ d ++ (":").data ++ ("/home/testuser").data ++
          ("/.deno/bin").data ++ (":").data ++ ("/usr/local/bin").data) ++ c8W) =
          (c8E1 ++ (("PATH=").data ++ d ++ (":").data ++ ("/home/testuser").data ++
            ("/.deno/bin").data ++ (":").data ++ ("/usr/local/bin").data)) ++ c8W := by
        simp [List.append_assoc]
      rcases userSplits hp hsn htn with ⟨rfl, rfl⟩ | ⟨rfl, rfl⟩ | ⟨rfl, rfl⟩ | ⟨rfl, rfl⟩ <;>
        · refine Or.inl (fun hsx => ?_)
          rw [hassoc] at hsx
          have hsr := suffixOfAppendShort hsx (by decide)
          revert hsr
          decide
    refine userNotInAppend n10 (by decide) ?_
    intro s t hp hsn htn
    rcases userSplits hp hsn htn with ⟨rfl, rfl⟩ | ⟨rfl, rfl⟩ | ⟨rfl, rfl⟩ | ⟨rfl, rfl⟩ <;>
      exact Or.inr (notPrefixConsHead (by decide))

/-- C8, witness: instantiating at the concrete runtime fixture. -/
theorem claimC8_witness :
    '{' ∉ (("/usr/bin/deno").data : Str) ∧ '{' ∉ (("/tmp").data : Str)
    ∧ (("Description=test-service (Deno Service)").data <:+: systemdGenerateConfig rtFix optsFix
    ∧ ("ExecStart=/bin/sh -c \"deno run --allow-net server.ts\"").data <:+:
        systemdGenerateConfig rtFix optsFix
    ∧ ("Environment=PATH=").data <:+: systemdGenerateConfig rtFix optsFix
    ∧ ("/home/testuser/.deno/bin").data <:+: systemdGenerateConfig rtFix optsFix
    ∧ ("/usr/local/bin").data <:+: systemdGenerateConfig rtFix optsFix
    ∧ ¬ ((("User=").data : Str) <:+: systemdGenerateConfig rtFix optsFix)) :=
  ⟨by decide, by decide,
    claimC8_fixture (("/usr/bin/deno").data) (("/tmp").data) (some (("/home/hostuser").data))
      (by decide) (by decide) (by decide) (by decide)⟩
